import Mathlib

set_option maxRecDepth 8000

/- Shallow embedding of the ShippingSchedule repository: the server side
   (src/ShippingServer/models.py and src/ShippingServer/main.py) and the
   client side edit handlers (src/ShippingClient/core/api_client.py and
   src/ShippingClient/ui/main_window.py).  Machine integers are modelled as
   Nat (the program only uses small non-negative integers), timestamps as an
   abstract Nat clock, and the database as an explicit in-memory store that
   is threaded through the operations.  Fallible code returns Except. -/

/- ===== Python string helpers ===== -/

-- Python str.strip(): drop leading and trailing whitespace (the strings the
-- program handles are ASCII).  Implemented on the character list so that it
-- evaluates inside the kernel.
def pyStrip (s : String) : String :=
  String.mk (((s.data.dropWhile Char.isWhitespace).reverse.dropWhile
    Char.isWhitespace).reverse)

-- Python str.startswith(p), character based
def pyStartsWith (s p : String) : Bool := p.data.isPrefixOf s.data

-- Python slicing s[n:], character based
def pyDropChars (s : String) (n : Nat) : String := String.mk (s.data.drop n)

-- character count of a string
def pyLen (s : String) : Nat := s.data.length

-- Python str.split(sep) for a single character separator
def splitOnCharAux (sep : Char) : List Char → List (List Char)
  | [] => [[]]
  | c :: rest =>
    match splitOnCharAux sep rest with
    | [] => [[]]
    | h :: t => if c = sep then [] :: h :: t else (c :: h) :: t

def pySplitOnChar (sep : Char) (s : String) : List String :=
  (splitOnCharAux sep s.data).map String.mk

-- Python str.lower() for ASCII
def pyToLower (s : String) : String := String.mk (s.data.map Char.toLower)

-- Python s.isdigit() followed by int(s): a nonempty all digit string parsed
-- as a decimal natural number
def digitsToNat (l : List Char) : Nat := l.foldl (fun a c => a * 10 + (c.toNat - 48)) 0

def strToNatQ (s : String) : Option Nat :=
  if s.data ≠ [] ∧ s.data.all Char.isDigit then some (digitsToNat s.data) else none

/- ===== models.py : validators (SQLAlchemy @validates hooks) ===== -/

-- validate_job_number (models.py).  Python isdigit plus int() on an ASCII
-- digit string is String.toNat?.
def validate_job_number (value : String) : Except String String :=
  if pyStrip value = ("") then .error ("Job number is required")
  else
    let cleaned := pyStrip value
    let base_number := (pySplitOnChar ('.') cleaned).headD ("")
    if (strToNatQ base_number).isNone then
      .error ("Job number must be numeric (with optional decimal suffix)")
    else if pyLen base_number > 15 then
      .error ("Job number too long (max 15 digits)")
    else .ok cleaned

-- validate_job_name (models.py)
def validate_job_name (value : String) : Except String String :=
  if pyStrip value = ("") then .error ("Job name is required")
  else
    let cleaned := pyStrip value
    if pyLen cleaned > 200 then .error ("Job name too long (max 200 characters)")
    else if pyLen cleaned < 2 then .error ("Job name too short (min 2 characters)")
    else .ok cleaned

-- Date parsing, mirroring Python datetime.strptime for the four formats
-- used in validate_date_fields.  The strptime regexes accept one or two
-- digit month and day (value ranges 1..12 and 1..31), exactly two digits
-- for %y (00-68 maps to 2000-2068, 69-99 to 1969-1999) and exactly four
-- digits for %Y; datetime construction then requires the day to exist in
-- the given month.
def isLeapYear (y : Nat) : Bool := y % 4 = 0 && (y % 100 != 0 || y % 400 = 0)

def daysInMonth (y m : Nat) : Nat :=
  if m = 2 then (if isLeapYear y then 29 else 28)
  else if m = 4 ∨ m = 6 ∨ m = 9 ∨ m = 11 then 30
  else 31

def parseMonthDay (s : String) (lo hi : Nat) : Option Nat :=
  match strToNatQ s with
  | some v => if pyLen s ≤ 2 ∧ lo ≤ v ∧ v ≤ hi then some v else none
  | none => none

def parseYear2 (s : String) : Option Nat :=
  match strToNatQ s with
  | some v => if pyLen s = 2 then some (if v ≤ 68 then 2000 + v else 1900 + v) else none
  | none => none

def parseYear4 (s : String) : Option Nat :=
  match strToNatQ s with
  | some v => if pyLen s = 4 then some v else none
  | none => none

def parseDateFmt (sep : Char) (yearParse : String → Option Nat) (s : String) :
    Option (Nat × Nat × Nat) :=
  match pySplitOnChar sep s with
  | [ms, ds, ys] =>
    match parseMonthDay ms 1 12, parseMonthDay ds 1 31, yearParse ys with
    | some m, some d, some y => if d ≤ daysInMonth y m then some (y, m, d) else none
    | _, _, _ => none
  | _ => none

-- One iteration of the format loop in validate_date_fields: parse attempt
-- followed by the year range check (whose ValueError is caught by the same
-- except clause, moving on to the next format).
def tryFmt (currentYear : Nat) (sep : Char) (yearParse : String → Option Nat)
    (s : String) : Option (Nat × Nat × Nat) :=
  match parseDateFmt sep yearParse s with
  | some (y, m, d) => if 1990 ≤ y ∧ y ≤ currentYear + 10 then some (y, m, d) else none
  | none => none

def tryDateFormats (currentYear : Nat) (s : String) : Option (Nat × Nat × Nat) :=
  match tryFmt currentYear ('/') parseYear2 s with
  | some r => some r
  | none =>
    match tryFmt currentYear ('/') parseYear4 s with
    | some r => some r
    | none =>
      match tryFmt currentYear ('-') parseYear2 s with
      | some r => some r
      | none => tryFmt currentYear ('-') parseYear4 s

-- strftime zero padding
def pad2 (n : Nat) : String := if n < 10 then ("0") ++ toString n else toString n

def renderDate (y m d : Nat) : String :=
  pad2 m ++ ("/") ++ pad2 d ++ ("/") ++ pad2 (y % 100)

def pyEmptyDateValues : List String :=
  [(""), ("n/a"), ("na"), ("null"), ("none"), ("pending"), ("tbd")]

-- validate_date_fields (models.py).  currentYear stands for
-- datetime.now().year at the moment of validation.
def validate_date_fields (currentYear : Nat) (key value : String) : Except String String :=
  if value = ("") then .ok ("")
  else
    let dateStr := pyStrip value
    if pyToLower dateStr ∈ pyEmptyDateValues then .ok ("")
    else
      match tryDateFormats currentYear dateStr with
      | some (y, m, d) => .ok (renderDate y m d)
      | none => .error (("Invalid date format for ") ++ key)

def valid_statuses : List String :=
  [("final_release"), ("partial_release"), ("rejected"), ("prod_updated")]

-- validate_status (models.py); the update path always passes a string
def validate_status (value : String) : Except String String :=
  let cleaned := pyStrip value
  if cleaned = ("") then .ok ("")
  else if cleaned ∈ valid_statuses then .ok cleaned
  else .error (("Invalid status: ") ++ value)

def textMaxLength (key : String) : Nat :=
  if key = ("description") ∨ key = ("qc_notes") ∨ key = ("shipping_notes") then 1000 else 500

-- validate_text_fields (models.py)
def validate_text_fields (key value : String) : Except String String :=
  if value = ("") then .ok ("")
  else
    let cleaned := pyStrip value
    if pyLen cleaned > textMaxLength key then .error (key ++ (" too long"))
    else .ok cleaned

def invoiceCharOK (c : Char) : Bool := c.isAlpha || c.isDigit || c = ('-') || c = ('.')

-- validate_invoice_number (models.py)
def validate_invoice_number (value : String) : Except String String :=
  if value = ("") then .ok ("")
  else
    let cleaned := pyStrip value
    if pyLen cleaned > 50 then .error ("Invoice number too long (max 50 characters)")
    else if cleaned.data.all invoiceCharOK then .ok cleaned
    else .error ("Invoice number contains invalid characters")

/- ===== models.py : Shipment row and AuditLog row ===== -/

structure Shipment where
  id : Nat
  job_number : String
  job_name : String
  week : String
  description : String
  status : String
  qc_release : String
  qc_notes : String
  created : String
  ship_plan : String
  shipped : String
  invoice_number : String
  shipping_notes : String
  created_by : Nat
  created_at : Nat
  updated_at : Nat
  version : Nat
  last_modified_by : Nat
deriving Repr, DecidableEq

-- The audit change payload: json.dumps of the create dict, of the update
-- diff dict (field to old and new value), or of the delete backup dict.
inductive ChangePayload where
  | createdP : List (String × String) → ChangePayload
  | updatedP : List (String × String × String) → ChangePayload
  | deletedP : List (String × String) → ChangePayload
deriving Repr, DecidableEq

structure AuditLog where
  user_id : Nat
  action : String
  table_name : String
  record_id : Nat
  changes : ChangePayload
  timestamp : Nat
deriving Repr, DecidableEq

structure Store where
  shipments : List Shipment
  audit : List AuditLog
deriving Repr, DecidableEq

def getField (s : Shipment) (f : String) : String :=
  if f = ("job_number") then s.job_number
  else if f = ("job_name") then s.job_name
  else if f = ("week") then s.week
  else if f = ("description") then s.description
  else if f = ("status") then s.status
  else if f = ("qc_release") then s.qc_release
  else if f = ("qc_notes") then s.qc_notes
  else if f = ("created") then s.created
  else if f = ("ship_plan") then s.ship_plan
  else if f = ("shipped") then s.shipped
  else if f = ("invoice_number") then s.invoice_number
  else if f = ("shipping_notes") then s.shipping_notes
  else ("")

def setField (s : Shipment) (f v : String) : Shipment :=
  if f = ("job_number") then { s with job_number := v }
  else if f = ("job_name") then { s with job_name := v }
  else if f = ("week") then { s with week := v }
  else if f = ("description") then { s with description := v }
  else if f = ("status") then { s with status := v }
  else if f = ("qc_release") then { s with qc_release := v }
  else if f = ("qc_notes") then { s with qc_notes := v }
  else if f = ("created") then { s with created := v }
  else if f = ("ship_plan") then { s with ship_plan := v }
  else if f = ("shipped") then { s with shipped := v }
  else if f = ("invoice_number") then { s with invoice_number := v }
  else if f = ("shipping_notes") then { s with shipping_notes := v }
  else s

-- Which validator fires on assignment to a given column (models.py
-- @validates decorations; week has no validator).
def fieldValidator (currentYear : Nat) (f v : String) : Except String String :=
  if f = ("job_number") then validate_job_number v
  else if f = ("job_name") then validate_job_name v
  else if f = ("description") ∨ f = ("qc_notes") ∨ f = ("shipping_notes") then
    validate_text_fields f v
  else if f = ("status") then validate_status v
  else if f = ("qc_release") ∨ f = ("created") ∨ f = ("ship_plan") ∨ f = ("shipped") then
    validate_date_fields currentYear f v
  else if f = ("invoice_number") then validate_invoice_number v
  else .ok v

def updatableFields : List String :=
  [("job_name"), ("week"), ("description"), ("status"), ("qc_release"), ("qc_notes"),
   ("created"), ("ship_plan"), ("shipped"), ("invoice_number"), ("shipping_notes")]

/- ===== main.py : HTTP level result and broadcast messages ===== -/

inductive HErr where
  | forbidden : HErr
  | notFound : String → HErr
  | conflict : String → HErr
  | badRequest : String → HErr
  | internal : String → HErr
deriving Repr, DecidableEq

def statusCodeOf : HErr → Nat
  | .forbidden => 403
  | .notFound _ => 404
  | .conflict _ => 409
  | .badRequest _ => 400
  | .internal _ => 500

-- The websocket fan out messages built in main.py
inductive BMsg where
  | createdM : Nat → String → String → BMsg
  | updatedM : Nat → String → Nat → List (String × String × String) → String → BMsg
  | deletedM : Nat → String → String → BMsg
deriving Repr, DecidableEq

def roleOK (role : String) : Prop := role = ("write") ∨ role = ("admin")

instance (role : String) : Decidable (roleOK role) := by
  unfold roleOK; infer_instance

/- ===== main.py : generate_unique_job_number ===== -/

def jobNumbers (st : Store) : List String := st.shipments.map (fun s => s.job_number)

-- The numeric suffix of an identifier of the shape base.N (None otherwise):
-- number.startswith(base + dot), then isdigit and int on the remainder.
def jobSuffix (base n : String) : Option Nat :=
  if pyStartsWith n (base ++ (".")) then strToNatQ (pyDropChars n (pyLen base + 1)) else none

-- generate_unique_job_number (main.py).  existing is the list of
-- job_number column values; the SQL LIKE pattern base% is the prefix filter.
def generate_unique_job_number (base : String) (existing : List String) : String :=
  let existing_numbers := existing.filter (fun n => pyStartsWith n base)
  if base ∈ existing_numbers then
    let suffixes : List Nat := 0 :: existing_numbers.filterMap (jobSuffix base)
    base ++ (".") ++ toString (suffixes.foldl Nat.max 0 + 1)
  else base

/- ===== main.py : update_shipment ===== -/

def findShipment (l : List Shipment) (i : Nat) : Option Shipment :=
  l.find? (fun s => s.id = i)

def findShipmentVer (l : List Shipment) (i v : Nat) : Option Shipment :=
  l.find? (fun s => s.id = i ∧ s.version = v)

def replaceShipment (l : List Shipment) (i : Nat) (s2 : Shipment) : List Shipment :=
  l.map (fun s => if s.id = i then s2 else s)

-- The update loop over update_data.items(): compare the raw new value with
-- the current column value; when different, run the column validator
-- (setattr) storing the cleaned value, and record old and raw new value in
-- changes_made, preserving iteration order.
def applyDelta (currentYear : Nat) (s : Shipment) :
    List (String × String) → Except String (Shipment × List (String × String × String))
  | [] => .ok (s, [])
  | (f, v) :: rest =>
    let old := getField s f
    if old = v then applyDelta currentYear s rest
    else
      match fieldValidator currentYear f v with
      | .error e => .error e
      | .ok cleaned =>
        match applyDelta currentYear (setField s f cleaned) rest with
        | .error e => .error e
        | .ok (s2, ch) => .ok (s2, (f, old, v) :: ch)

def conflictDetail (v : Nat) : String :=
  ("Shipment was modified by another user. Current version: ") ++ toString v

instance {ε α : Type} [DecidableEq ε] [DecidableEq α] : DecidableEq (Except ε α) := fun a b =>
  match a, b with
  | .error e, .error f =>
    if h : e = f then .isTrue (congrArg Except.error h)
    else .isFalse (fun hc => h (Except.error.inj hc))
  | .ok x, .ok y =>
    if h : x = y then .isTrue (congrArg Except.ok h)
    else .isFalse (fun hc => h (Except.ok.inj hc))
  | .error _, .ok _ => .isFalse (fun hc => Except.noConfusion hc)
  | .ok _, .error _ => .isFalse (fun hc => Except.noConfusion hc)

structure UpdateOut where
  response : Except HErr Shipment
  store : Store
  broadcasts : List BMsg
deriving Repr, DecidableEq

-- update_shipment (main.py).  One transaction: re-read by id and expected
-- version, distinguish missing id (404) from stale version (409, detail
-- message carrying the actual current version), apply the delta, and when
-- at least one field changed bump version, stamp metadata, append the
-- audit row and broadcast; a delta with no effective change returns the
-- row untouched with no audit and no broadcast.
def update_shipment (currentYear now userId : Nat) (username role : String)
    (shipment_id current_version : Nat) (delta : List (String × String))
    (st : Store) : UpdateOut :=
  if roleOK role then
    match findShipmentVer st.shipments shipment_id current_version with
    | none =>
      match findShipment st.shipments shipment_id with
      | none => ⟨.error (.notFound ("Shipment not found")), st, []⟩
      | some existing => ⟨.error (.conflict (conflictDetail existing.version)), st, []⟩
    | some s =>
      match applyDelta currentYear s delta with
      | .error e => ⟨.error (.badRequest e), st, []⟩
      | .ok (s2, changes_made) =>
        if changes_made = [] then ⟨.ok s, st, []⟩
        else
          let s3 := { s2 with version := s.version + 1, last_modified_by := userId,
                              updated_at := now }
          let log : AuditLog :=
            ⟨userId, ("update"), ("shipments"), s.id, .updatedP changes_made, now⟩
          ⟨.ok s3,
           ⟨replaceShipment st.shipments shipment_id s3, st.audit ++ [log]⟩,
           [.updatedM s.id s3.job_number s3.version changes_made username]⟩
  else ⟨.error .forbidden, st, []⟩

/- ===== main.py : create_shipment ===== -/

structure ShipmentCreate where
  job_number : String
  job_name : String
  week : String
  description : String
  status : String
  qc_release : String
  qc_notes : String
  created : String
  ship_plan : String
  shipped : String
  invoice_number : String
  shipping_notes : String
deriving Repr, DecidableEq

def reqWith (c : ShipmentCreate) (jn : String) : ShipmentCreate := { c with job_number := jn }

def createPairs (c : ShipmentCreate) : List (String × String) :=
  [(("job_number"), c.job_number), (("job_name"), c.job_name), (("week"), c.week),
   (("description"), c.description), (("status"), c.status), (("qc_release"), c.qc_release),
   (("qc_notes"), c.qc_notes), (("created"), c.created), (("ship_plan"), c.ship_plan),
   (("shipped"), c.shipped), (("invoice_number"), c.invoice_number),
   (("shipping_notes"), c.shipping_notes)]

-- Shipment(**shipment_data, created_by=..., last_modified_by=..., version=1):
-- every assigned column runs its validator; the first ValueError wins.
def mkShipment (currentYear newId : Nat) (c : ShipmentCreate) (userId now : Nat) :
    Except String Shipment := do
  let jn ← validate_job_number c.job_number
  let jname ← validate_job_name c.job_name
  let desc ← validate_text_fields ("description") c.description
  let stat ← validate_status c.status
  let qcr ← validate_date_fields currentYear ("qc_release") c.qc_release
  let qcn ← validate_text_fields ("qc_notes") c.qc_notes
  let cre ← validate_date_fields currentYear ("created") c.created
  let spl ← validate_date_fields currentYear ("ship_plan") c.ship_plan
  let shp ← validate_date_fields currentYear ("shipped") c.shipped
  let inv ← validate_invoice_number c.invoice_number
  let snt ← validate_text_fields ("shipping_notes") c.shipping_notes
  pure { id := newId, job_number := jn, job_name := jname, week := c.week,
         description := desc, status := stat, qc_release := qcr, qc_notes := qcn,
         created := cre, ship_plan := spl, shipped := shp, invoice_number := inv,
         shipping_notes := snt, created_by := userId, created_at := now,
         updated_at := now, version := 1, last_modified_by := userId }

-- The commit outcome of one creation attempt, abstracting the storage
-- exceptions of main.py: a uniqueness violation whose text contains
-- duplicate key, some other IntegrityError, another SQLAlchemyError, or
-- any other exception.
inductive CommitFault where
  | dupKey : CommitFault
  | integrityOther : CommitFault
  | dbError : CommitFault
  | otherExc : CommitFault
deriving Repr, DecidableEq

structure CreateOut where
  response : Except HErr Shipment
  store : Store
  sleeps : List Nat
  candidates : List String
  broadcasts : List BMsg
  attempts : Nat
deriving Repr, DecidableEq

-- The retry loop of create_shipment (max_retries = 3).  storeAt a is the
-- database state read by attempt a (fresh reads each time), faultAt a the
-- commit outcome injected at attempt a.  Each failed attempt is rolled
-- back, so nothing it added is visible.  Sleeps are recorded in tenths of
-- a second: time.sleep(0.1 * (attempt + 1)).  A validation HTTPException
-- raised inside the try block is caught by the generic except clause and
-- surfaces as a 500 Internal server error.
def createLoop (currentYear now userId newId : Nat) (username : String)
    (req : ShipmentCreate) (storeAt : Nat → Store) (faultAt : Nat → Option CommitFault) :
    Nat → Nat → List Nat → List String → CreateOut
  | 0, attempt, sleeps, cands =>
    ⟨.error (.internal ("Internal server error")), storeAt attempt, sleeps, cands, [], attempt⟩
  | remaining + 1, attempt, sleeps, cands =>
    let st := storeAt attempt
    let cand := generate_unique_job_number req.job_number (jobNumbers st)
    let cands2 := cands ++ [cand]
    match mkShipment currentYear newId (reqWith req cand) userId now with
    | .error _ =>
      ⟨.error (.internal ("Internal server error")), st, sleeps, cands2, [], attempt + 1⟩
    | .ok s =>
      match faultAt attempt with
      | none =>
        let log : AuditLog :=
          ⟨userId, ("create"), ("shipments"), newId, .createdP (createPairs (reqWith req cand)), now⟩
        ⟨.ok s, ⟨st.shipments ++ [s], st.audit ++ [log]⟩, sleeps, cands2,
         [.createdM s.id s.job_number username], attempt + 1⟩
      | some .dupKey =>
        if attempt < 2 then
          createLoop currentYear now userId newId username req storeAt faultAt
            remaining (attempt + 1) (sleeps ++ [attempt + 1]) cands2
        else
          ⟨.error (.badRequest ("Job number already exists")), st, sleeps, cands2, [], attempt + 1⟩
      | some .integrityOther =>
        ⟨.error (.badRequest ("Job number already exists")), st, sleeps, cands2, [], attempt + 1⟩
      | some .dbError =>
        ⟨.error (.internal ("Database error")), st, sleeps, cands2, [], attempt + 1⟩
      | some .otherExc =>
        ⟨.error (.internal ("Internal server error")), st, sleeps, cands2, [], attempt + 1⟩

def create_shipment (currentYear now userId newId : Nat) (username role : String)
    (req : ShipmentCreate) (storeAt : Nat → Store) (faultAt : Nat → Option CommitFault) :
    CreateOut :=
  if roleOK role then
    createLoop currentYear now userId newId username req storeAt faultAt 3 0 [] []
  else ⟨.error .forbidden, storeAt 0, [], [], [], 0⟩

/- ===== main.py : delete_shipment ===== -/

inductive DbEffect where
  | deleteRow : Nat → DbEffect
  | insertAudit : AuditLog → DbEffect
deriving Repr, DecidableEq

structure DeleteOut where
  response : Except HErr String
  txs : List (List DbEffect)
  store : Store
  broadcasts : List BMsg
deriving Repr, DecidableEq

def businessFieldNames : List String :=
  [("job_number"), ("job_name"), ("week"), ("description"), ("status"), ("qc_release"),
   ("qc_notes"), ("created"), ("ship_plan"), ("shipped"), ("invoice_number"),
   ("shipping_notes")]

-- backup_data in delete_shipment (main.py)
def businessSnapshot (s : Shipment) : List (String × String) :=
  businessFieldNames.map (fun f => (f, getField s f))

-- delete_shipment (main.py).  The row removal is committed first
-- (db.delete; db.commit), and only then the audit row is added and
-- committed in a second transaction (db.add(log); db.commit); txs records
-- the committed transactions in order.
def delete_shipment (now userId : Nat) (username role : String) (shipment_id : Nat)
    (st : Store) : DeleteOut :=
  if roleOK role then
    match findShipment st.shipments shipment_id with
    | none => ⟨.error (.notFound ("Shipment not found")), [], st, []⟩
    | some s =>
      let backup := businessSnapshot s
      let log : AuditLog :=
        ⟨userId, ("delete"), ("shipments"), shipment_id, .deletedP backup, now⟩
      ⟨.ok ("Shipment deleted successfully"),
       [[.deleteRow shipment_id], [.insertAudit log]],
       ⟨st.shipments.eraseP (fun r => r.id = shipment_id), st.audit ++ [log]⟩,
       [.deletedM shipment_id s.job_number username]⟩
  else ⟨.error .forbidden, [], st, []⟩

/- ===== main.py : ConnectionManager ===== -/

-- Viewer sessions are identified by Nat.  The per session channel write
-- outcome is the oracle fails.  The observable effects of one broadcast:
-- a successful send, a failed send, a session dropped from the active set,
-- or a log line written (the bare except in ConnectionManager.broadcast
-- writes none).
inductive FanEffect where
  | sentOk : Nat → FanEffect
  | sendFailed : Nat → FanEffect
  | droppedConn : Nat → FanEffect
  | loggedMsg : String → FanEffect
deriving Repr, DecidableEq

-- ConnectionManager.disconnect: remove if present
def disconnectConn (act : List Nat) (c : Nat) : List Nat :=
  if c ∈ act then act.erase c else act

-- The loop of ConnectionManager.broadcast: iterate over a copy of
-- active_connections, mutating the live list on failure.
def broadcastLoop (fails : Nat → Bool) : List Nat → List Nat → List Nat × List FanEffect
  | [], act => (act, [])
  | c :: rest, act =>
    if fails c then
      let act2 := disconnectConn act c
      let r := broadcastLoop fails rest act2
      (r.1, .sendFailed c :: .droppedConn c :: r.2)
    else
      let r := broadcastLoop fails rest act
      (r.1, .sentOk c :: r.2)

def cm_broadcast (fails : Nat → Bool) (act : List Nat) : List Nat × List FanEffect :=
  broadcastLoop fails act act

-- update_shipment followed by the fan out of its broadcast messages over
-- the active sessions; in main.py the commit completes before broadcast is
-- attempted and the broadcast call is wrapped so that its failures only
-- produce a warning.
def update_and_fanout (currentYear now userId : Nat) (username role : String)
    (shipment_id current_version : Nat) (delta : List (String × String)) (st : Store)
    (fails : Nat → Bool) (act : List Nat) : UpdateOut × (List Nat × List FanEffect) :=
  (update_shipment currentYear now userId username role shipment_id current_version delta st,
   cm_broadcast fails act)

/- ===== client side: api_client.py and main_window.py ===== -/

-- The methods the class RobustApiClient defines (core/api_client.py).
def robustApiClientMethods : List String :=
  [("update_token"), ("_make_request"), ("_extract_error_message"), ("get"), ("post"),
   ("put"), ("delete"), ("get_shipments"), ("create_shipment"), ("update_shipment"),
   ("delete_shipment"), ("login")]

structure ApiResp where
  success : Bool
  status_code : Nat
  data : List (String × String)
  error : String
deriving Repr, DecidableEq

-- A Python api client object as the handlers see it: attribute lookup may
-- fail (AttributeError), and the two methods the handlers call are given a
-- semantics when present.
structure ApiClientObj where
  hasMethod : String → Bool
  updateShipmentWithVersion : Nat → List (String × String) → Nat → ApiResp
  getShipmentById : Nat → ApiResp

def robustClient (u : Nat → List (String × String) → Nat → ApiResp)
    (g : Nat → ApiResp) : ApiClientObj :=
  ⟨fun n => n ∈ robustApiClientMethods, u, g⟩

def attributeErrorMessage (n : String) : String :=
  ("RobustApiClient object has no attribute ") ++ n

-- Client side dicts (parsed json objects) as association lists.
def dictGet (d : List (String × String)) (k : String) : Option String :=
  (d.find? (fun p => p.1 = k)).map (fun p => p.2)

def dictGetD (d : List (String × String)) (k dflt : String) : String :=
  (dictGet d k).getD dflt

def dictSet (d : List (String × String)) (k v : String) : List (String × String) :=
  if (dictGet d k).isSome then d.map (fun p => if p.1 = k then (k, v) else p)
  else d ++ [(k, v)]

-- int(shipment.get(version_key, 1) or 1): missing, empty or zero become 1
def pyIntOr1 (v : Option String) : Nat :=
  match v with
  | none => 1
  | some s => if s = ("") ∨ s = ("0") then 1 else (strToNatQ s).getD 1

-- int(latest_shipment.get(version_key, current_version))
def latestVersionOf (latest : List (String × String)) (cv : Nat) : Nat :=
  match dictGet latest ("version") with
  | some s => (strToNatQ s).getD cv
  | none => cv

-- shipment.get(version_key, 1) + 1 as the fallback of update_local_data
def localVerBump (sh : List (String × String)) : String :=
  match dictGet sh ("version") with
  | some s => toString ((strToNatQ s).getD 0 + 1)
  | none => toString (2 : Nat)

-- for key, value in latest.items(): if key in shipment: shipment[key] = value
def mergeAll (sh latest : List (String × String)) : List (String × String) :=
  latest.foldl (fun acc kv => if (dictGet acc kv.1).isSome then dictSet acc kv.1 kv.2 else acc) sh

-- same merge but skipping the field currently being edited
def mergeExcept (field : String) (sh latest : List (String × String)) :
    List (String × String) :=
  latest.foldl
    (fun acc kv =>
      if kv.1 ≠ field ∧ (dictGet acc kv.1).isSome then dictSet acc kv.1 kv.2 else acc) sh

-- update_local_data / update_ui_after_success in main_window.py
def updateLocalData (userId : Nat) (sh : List (String × String)) (field new_value : String)
    (upd : List (String × String)) : List (String × String) :=
  let sh1 := dictSet sh field new_value
  let v2 := dictGetD upd ("version") (localVerBump sh)
  let sh2 := dictSet sh1 ("version") v2
  dictSet sh2 ("last_modified_by") (toString userId)

def clientDateFields : List String :=
  [("qc_release"), ("created"), ("ship_plan"), ("shipped")]

structure ItemOut where
  requests : List (Nat × List (String × String) × Nat)
  fetches : List Nat
  dialog : Option (String × String)
  shipment : List (String × String)
  cellText : Option String
  toast : Option String
  errorShown : Option String
deriving Repr, DecidableEq

def oldValOf (sh : List (String × String)) (field : String) : String :=
  pyStrip (dictGetD sh field (""))

def newValOf (field : String) (raw : Option String) : String :=
  let nv := pyStrip (raw.getD (""))
  if field ∈ clientDateFields ∧ nv = ("-") then ("") else nv

-- on_item_changed (ui/main_window.py), from the point where the edited
-- cell, its column field and the row shipment dict are known.  raw is the
-- edit role value of the cell, choiceYes the answer of the human actor to
-- the field conflict message box (Yes keeps the local value).  The whole
-- body runs inside try, so a missing api client method surfaces as
-- AttributeError converted to a shown error after reverting the cell.
def on_item_changed (c : ApiClientObj) (userId : Nat) (choiceYes : Bool)
    (sh : List (String × String)) (field : String) (raw : Option String) : ItemOut :=
  let old_value := oldValOf sh field
  let new_value := newValOf field raw
  if new_value = old_value then ⟨[], [], none, sh, none, none, none⟩
  else
    let ct0 : Option String :=
      if field ∈ clientDateFields ∧ new_value = ("") then some ("-") else none
    let sid := (strToNatQ (dictGetD sh ("id") ("0"))).getD 0
    let cv := pyIntOr1 (dictGet sh ("version"))
    if c.hasMethod ("update_shipment_with_version") then
      let call1 := (sid, [(field, new_value)], cv)
      let r1 := c.updateShipmentWithVersion sid [(field, new_value)] cv
      if r1.success then
        ⟨[call1], [], none, updateLocalData userId sh field new_value r1.data, ct0,
         some ("Changes saved successfully"), none⟩
      else if r1.status_code = 409 then
        if c.hasMethod ("get_shipment_by_id") then
          let lr := c.getShipmentById sid
          if lr.success then
            let latest := lr.data
            let lv := latestVersionOf latest cv
            let lfv := dictGetD latest field ("")
            if lfv ≠ old_value ∧ ¬ choiceYes then
              ⟨[call1], [sid], some (new_value, lfv), mergeAll sh latest, some lfv,
               some ("Change cancelled - field updated with current value"), none⟩
            else
              let dlg : Option (String × String) :=
                if lfv ≠ old_value then some (new_value, lfv) else none
              let shm := mergeExcept field sh latest
              let call2 := (sid, [(field, new_value)], lv)
              let r2 := c.updateShipmentWithVersion sid [(field, new_value)] lv
              if r2.success then
                ⟨[call1, call2], [sid], dlg,
                 updateLocalData userId shm field new_value r2.data, ct0,
                 some ("Changes saved successfully"), none⟩
              else
                ⟨[call1, call2], [sid], dlg, shm, some old_value, none,
                 some (("Failed to save after resolving conflict: ") ++ r2.error)⟩
          else
            ⟨[call1], [], none, sh, some old_value, none,
             some ("Could not resolve version conflict. Please refresh and try again.")⟩
        else
          ⟨[call1], [], none, sh, some old_value, none,
           some (("Failed to save changes: ") ++
                 attributeErrorMessage ("get_shipment_by_id"))⟩
      else
        ⟨[call1], [], none, sh, some old_value, none,
         some (("Failed to save changes: ") ++ r1.error)⟩
    else
      ⟨[], [], none, sh, some old_value, none,
       some (("Failed to save changes: ") ++
             attributeErrorMessage ("update_shipment_with_version"))⟩

structure StatusOut where
  requests : List (Nat × List (String × String) × Nat)
  fetches : List Nat
  shipment : List (String × String)
  toast : Option String
  errorShown : Option String
deriving Repr, DecidableEq

-- change_status (ui/main_window.py), from inside the try block; on a 409 it
-- fetches the latest record, adopts every field of it and retries once.
def change_status (c : ApiClientObj) (userId : Nat) (sh : List (String × String))
    (new_status : String) : StatusOut :=
  let sid := (strToNatQ (dictGetD sh ("id") ("0"))).getD 0
  let cv := pyIntOr1 (dictGet sh ("version"))
  if c.hasMethod ("update_shipment_with_version") then
    let call1 := (sid, [(("status"), new_status)], cv)
    let r1 := c.updateShipmentWithVersion sid [(("status"), new_status)] cv
    if r1.success then
      ⟨[call1], [], updateLocalData userId sh ("status") new_status r1.data,
       some ("Status updated successfully"), none⟩
    else if r1.status_code = 409 then
      if c.hasMethod ("get_shipment_by_id") then
        let lr := c.getShipmentById sid
        if lr.success then
          let latest := lr.data
          let lv := latestVersionOf latest cv
          let shm := mergeAll sh latest
          let call2 := (sid, [(("status"), new_status)], lv)
          let r2 := c.updateShipmentWithVersion sid [(("status"), new_status)] lv
          if r2.success then
            ⟨[call1, call2], [sid], updateLocalData userId shm ("status") new_status r2.data,
             some ("Status updated successfully"), none⟩
          else
            ⟨[call1, call2], [sid], shm, none,
             some (("Failed to update status after resolving conflict: ") ++ r2.error)⟩
        else
          ⟨[call1], [sid], sh, none,
           some ("Could not resolve version conflict. Please refresh and try again.")⟩
      else
        ⟨[call1], [], sh, none,
         some (("Failed to update status: ") ++
               attributeErrorMessage ("get_shipment_by_id"))⟩
    else
      ⟨[call1], [], sh, none, some (("Failed to update status: ") ++ r1.error)⟩
  else
    ⟨[], [], sh, none,
     some (("Failed to update status: ") ++
           attributeErrorMessage ("update_shipment_with_version"))⟩

/- ===== trace semantics for version monotonicity ===== -/

structure UpdReq where
  userId : Nat
  username : String
  role : String
  sid : Nat
  cver : Nat
  delta : List (String × String)

def applyReq (currentYear now : Nat) (r : UpdReq) (st : Store) : UpdateOut :=
  update_shipment currentYear now r.userId r.username r.role r.sid r.cver r.delta st

def runUpdates (currentYear now : Nat) : List UpdReq → Store → Store
  | [], st => st
  | r :: rs, st => runUpdates currentYear now rs (applyReq currentYear now r st).store

-- The number of requests in a trace that were accepted as real mutations of
-- record i (exactly those emit a broadcast).
def changedCount (currentYear now i : Nat) : List UpdReq → Store → Nat
  | [], _ => 0
  | r :: rs, st =>
    let out := applyReq currentYear now r st
    (if r.sid = i ∧ out.broadcasts ≠ [] then 1 else 0) +
      changedCount currentYear now i rs out.store

def verOf (st : Store) (i : Nat) : Option Nat :=
  (findShipment st.shipments i).map (fun s => s.version)

def storeWF (st : Store) : Prop := (st.shipments.map (fun s => s.id)).Nodup

instance (st : Store) : Decidable (storeWF st) := by
  unfold storeWF; infer_instance

/- ===== concrete fixtures used by witnesses and counterexamples ===== -/

def exShipA : Shipment :=
  ⟨1, ("100"), ("Job A"), ("W1"), (""), (""), (""), (""), (""), (""), (""), (""), (""),
   7, 0, 0, 2, 7⟩

def exShipB : Shipment := { exShipA with job_name := ("Job B") }

def exStoreA : Store := ⟨[exShipA], []⟩

def exStoreB : Store := ⟨[exShipB], []⟩

def exShipV1 : Shipment := { exShipA with version := 1 }

def exStoreV1 : Store := ⟨[exShipV1], []⟩

def isDeleteRowE : DbEffect → Bool
  | .deleteRow _ => true
  | _ => false

def isInsertAuditE : DbEffect → Bool
  | .insertAudit _ => true
  | _ => false

def isLoggedE : FanEffect → Bool
  | .loggedMsg _ => true
  | _ => false

-- The effect trace one broadcast produces: one send attempt per session in
-- the copied list, failures immediately followed by the drop.
def fanEffectsFor (fails : Nat → Bool) : List Nat → List FanEffect
  | [] => []
  | c :: rest =>
    (if fails c then [FanEffect.sendFailed c, FanEffect.droppedConn c]
     else [FanEffect.sentOk c]) ++ fanEffectsFor fails rest

/- ===== helper lemmas about the store ===== -/

theorem mem_id_unique {l : List Shipment} (h : (l.map (fun s => s.id)).Nodup)
    {x y : Shipment} (hx : x ∈ l) (hy : y ∈ l) (hid : x.id = y.id) : x = y :=
  List.inj_on_of_nodup_map h hx hy hid

theorem findVer_none_of_find_none {l : List Shipment} {i : Nat} (v : Nat)
    (h : findShipment l i = none) : findShipmentVer l i v = none := by
  rw [findShipment, List.find?_eq_none] at h
  rw [findShipmentVer, List.find?_eq_none]
  intro x hx
  have hx2 := h x hx
  simp only [decide_eq_true_eq] at hx2 ⊢
  intro hc
  exact hx2 hc.1

theorem find_of_mem_id {l : List Shipment} (h : (l.map (fun s => s.id)).Nodup)
    {s : Shipment} (hs : s ∈ l) {i : Nat} (hid : s.id = i) :
    findShipment l i = some s := by
  induction l with
  | nil => cases hs
  | cons a t ih =>
    simp only [List.map_cons, List.nodup_cons] at h
    by_cases ha : a.id = i
    · rw [findShipment, List.find?_cons_of_pos _ (by simp only [decide_eq_true_eq]; omega)]
      rcases List.mem_cons.1 hs with rfl | hst
      · rfl
      · exfalso
        apply h.1
        rw [show a.id = s.id by omega]
        exact List.mem_map_of_mem (fun s => s.id) hst
    · rw [findShipment, List.find?_cons_of_neg _ (by simp only [decide_eq_true_eq]; omega)]
      rcases List.mem_cons.1 hs with rfl | hst
      · exact absurd hid ha
      · exact ih h.2 hst

theorem findVer_of_find {l : List Shipment} {i v : Nat} {s : Shipment}
    (h : findShipment l i = some s) (hv : s.version = v) :
    findShipmentVer l i v = some s := by
  induction l with
  | nil => simp [findShipment] at h
  | cons a t ih =>
    by_cases ha : a.id = i
    · rw [findShipment, List.find?_cons_of_pos _ (by simp only [decide_eq_true_eq]; omega)] at h
      cases h
      rw [findShipmentVer,
          List.find?_cons_of_pos _ (by simp only [decide_eq_true_eq]; exact ⟨ha, hv⟩)]
    · rw [findShipment, List.find?_cons_of_neg _ (by simp only [decide_eq_true_eq]; omega)] at h
      rw [findShipmentVer,
          List.find?_cons_of_neg _ (by simp only [decide_eq_true_eq]; intro hc; exact ha hc.1)]
      exact ih h

theorem findVer_none_of_ver_ne {l : List Shipment}
    (hnd : (l.map (fun s => s.id)).Nodup) {i v : Nat} {ex : Shipment}
    (h : findShipment l i = some ex) (hne : ex.version ≠ v) :
    findShipmentVer l i v = none := by
  have hmem : ex ∈ l := List.mem_of_find?_eq_some h
  have hexid : ex.id = i := by
    have := List.find?_some h
    simpa using this
  rw [findShipmentVer, List.find?_eq_none]
  intro x hx
  simp only [decide_eq_true_eq]
  intro hc
  have hxe : x = ex := mem_id_unique hnd hx hmem (by rw [hc.1, hexid])
  exact hne (hxe ▸ hc.2)

theorem replace_find (l : List Shipment) {sid : Nat} {s2 : Shipment}
    (h2 : s2.id = sid) (i : Nat) :
    findShipment (replaceShipment l sid s2) i =
      if i = sid then (findShipment l sid).map (fun _ => s2) else findShipment l i := by
  induction l with
  | nil => by_cases hi : i = sid <;> simp [replaceShipment, findShipment, hi]
  | cons a t ih =>
    have step : replaceShipment (a :: t) sid s2 =
        (if a.id = sid then s2 else a) :: replaceShipment t sid s2 := rfl
    rw [step]
    by_cases ha : a.id = sid
    · rw [if_pos ha]
      by_cases hi : i = sid
      · rw [if_pos hi]
        rw [findShipment, List.find?_cons_of_pos _ (by simp only [decide_eq_true_eq]; omega)]
        rw [findShipment, List.find?_cons_of_pos _ (by simp only [decide_eq_true_eq]; omega)]
        rfl
      · rw [if_neg hi]
        rw [findShipment, List.find?_cons_of_neg _ (by simp only [decide_eq_true_eq]; omega)]
        rw [findShipment, List.find?_cons_of_neg _ (by simp only [decide_eq_true_eq]; omega)]
        have hrec := ih
        rw [if_neg hi] at hrec
        rw [findShipment] at hrec
        exact hrec
    · rw [if_neg ha]
      by_cases hi : i = sid
      · rw [if_pos hi]
        rw [findShipment, List.find?_cons_of_neg _ (by simp only [decide_eq_true_eq]; omega)]
        rw [findShipment, List.find?_cons_of_neg _ (by simp only [decide_eq_true_eq]; omega)]
        have hrec := ih
        rw [if_pos hi] at hrec
        rw [findShipment, findShipment] at hrec
        exact hrec
      · by_cases hai : a.id = i
        · rw [findShipment, List.find?_cons_of_pos _ (by simp only [decide_eq_true_eq]; omega)]
          rw [if_neg hi]
          rw [findShipment, List.find?_cons_of_pos _ (by simp only [decide_eq_true_eq]; omega)]
        · rw [findShipment, List.find?_cons_of_neg _ (by simp only [decide_eq_true_eq]; omega)]
          rw [if_neg hi]
          rw [findShipment, List.find?_cons_of_neg _ (by simp only [decide_eq_true_eq]; omega)]
          have hrec := ih
          rw [if_neg hi] at hrec
          rw [findShipment, findShipment] at hrec
          exact hrec

theorem replace_map_id (l : List Shipment) {sid : Nat} {s2 : Shipment} (h2 : s2.id = sid) :
    (replaceShipment l sid s2).map (fun s => s.id) = l.map (fun s => s.id) := by
  induction l with
  | nil => rfl
  | cons a t ih =>
    have step : replaceShipment (a :: t) sid s2 =
        (if a.id = sid then s2 else a) :: replaceShipment t sid s2 := rfl
    rw [step, List.map_cons, List.map_cons, ih]
    by_cases ha : a.id = sid
    · rw [if_pos ha, h2, ha]
    · rw [if_neg ha]

theorem setField_id_ver (s : Shipment) (f v : String) :
    (setField s f v).id = s.id ∧ (setField s f v).version = s.version := by
  unfold setField
  by_cases h0 : f = ("job_number")
  · rw [if_pos h0]; exact ⟨rfl, rfl⟩
  · rw [if_neg h0]
    by_cases h1 : f = ("job_name")
    · rw [if_pos h1]; exact ⟨rfl, rfl⟩
    · rw [if_neg h1]
      by_cases h2 : f = ("week")
      · rw [if_pos h2]; exact ⟨rfl, rfl⟩
      · rw [if_neg h2]
        by_cases h3 : f = ("description")
        · rw [if_pos h3]; exact ⟨rfl, rfl⟩
        · rw [if_neg h3]
          by_cases h4 : f = ("status")
          · rw [if_pos h4]; exact ⟨rfl, rfl⟩
          · rw [if_neg h4]
            by_cases h5 : f = ("qc_release")
            · rw [if_pos h5]; exact ⟨rfl, rfl⟩
            · rw [if_neg h5]
              by_cases h6 : f = ("qc_notes")
              · rw [if_pos h6]; exact ⟨rfl, rfl⟩
              · rw [if_neg h6]
                by_cases h7 : f = ("created")
                · rw [if_pos h7]; exact ⟨rfl, rfl⟩
                · rw [if_neg h7]
                  by_cases h8 : f = ("ship_plan")
                  · rw [if_pos h8]; exact ⟨rfl, rfl⟩
                  · rw [if_neg h8]
                    by_cases h9 : f = ("shipped")
                    · rw [if_pos h9]; exact ⟨rfl, rfl⟩
                    · rw [if_neg h9]
                      by_cases h10 : f = ("invoice_number")
                      · rw [if_pos h10]; exact ⟨rfl, rfl⟩
                      · rw [if_neg h10]
                        by_cases h11 : f = ("shipping_notes")
                        · rw [if_pos h11]; exact ⟨rfl, rfl⟩
                        · rw [if_neg h11]
                          exact ⟨rfl, rfl⟩

theorem applyDelta_id_ver (currentYear : Nat) (delta : List (String × String)) :
    ∀ (s s2 : Shipment) (ch : List (String × String × String)),
      applyDelta currentYear s delta = .ok (s2, ch) →
      s2.id = s.id ∧ s2.version = s.version := by
  induction delta with
  | nil =>
    intro s s2 ch h
    rw [applyDelta] at h
    cases h
    exact ⟨rfl, rfl⟩
  | cons fv rest ih =>
    intro s s2 ch h
    obtain ⟨f, v⟩ := fv
    rw [applyDelta] at h
    by_cases he : getField s f = v
    · rw [if_pos he] at h
      exact ih s s2 ch h
    · rw [if_neg he] at h
      split at h
      · exact Except.noConfusion h
      · split at h
        · exact Except.noConfusion h
        · rename_i x1 cleaned heq x2 s3 ch2 heq2
          injection h with hpair
          injection hpair with hs hch
          subst hs
          have h1 := ih (setField s f cleaned) s3 ch2 heq2
          have hsf := setField_id_ver s f cleaned
          exact ⟨h1.1.trans hsf.1, h1.2.trans hsf.2⟩

theorem applyDelta_noop (currentYear : Nat) (s : Shipment) :
    ∀ delta : List (String × String),
      (∀ f v, (f, v) ∈ delta → getField s f = v) →
      applyDelta currentYear s delta = .ok (s, []) := by
  intro delta
  induction delta with
  | nil => intro _; rw [applyDelta]
  | cons fv rest ih =>
    intro h
    obtain ⟨f, v⟩ := fv
    rw [applyDelta]
    rw [if_pos (h f v (List.mem_cons_self _ _))]
    exact ih (fun f2 v2 hm => h f2 v2 (List.mem_cons_of_mem _ hm))

/-- Claim C1, counterexample to the claim as stated: first, the 409 Conflict
response does not carry the full current state of the record: two stores
whose only record differs in job_name produce byte for byte identical
conflict responses, so the state cannot be recovered from the response.
Second, a version matching update whose delta equals the current field
values returns success without incrementing the version (the claim says the
delta branch always increments by 1 and stamps metadata). -/
theorem c1_counterexample :
    ((update_shipment 2026 5 9 ("alice") ("write") 1 1 [] exStoreA).response =
      (update_shipment 2026 5 9 ("alice") ("write") 1 1 [] exStoreB).response ∧
     exStoreA.shipments ≠ exStoreB.shipments) ∧
    (update_shipment 2026 5 9 ("alice") ("write") 1 2 [(("week"), ("W1"))] exStoreA =
      ⟨.ok exShipA, exStoreA, []⟩ ∧ exShipA.version = 2) := by
  refine ⟨⟨?_, ?_⟩, ?_, rfl⟩ <;> decide

/-- Claim C1 (amended): for every update call by a writer: if no record with
the id exists the result is NotFound (404) with the store untouched; if the
record exists but its version differs from the expected version the result
is Conflict (409) whose detail message carries the actual current version
(but not the full current state), with no field mutated and nothing
broadcast; if the version matches and the delta changes at least one field,
the delta is applied, version is incremented by exactly 1, updated_at and
last_modified_by are stamped, and the audit entry is appended in the same
atomic state transition. -/
theorem c1_update_contract (currentYear now userId : Nat) (username role : String)
    (sid cver : Nat) (delta : List (String × String)) (st : Store)
    (hrole : roleOK role) (hwf : storeWF st) :
    (findShipment st.shipments sid = none →
      update_shipment currentYear now userId username role sid cver delta st =
        ⟨.error (.notFound ("Shipment not found")), st, []⟩) ∧
    (∀ ex, findShipment st.shipments sid = some ex → ex.version ≠ cver →
      update_shipment currentYear now userId username role sid cver delta st =
        ⟨.error (.conflict (conflictDetail ex.version)), st, []⟩ ∧
      statusCodeOf (.conflict (conflictDetail ex.version)) = 409) ∧
    (∀ s s2 ch, findShipment st.shipments sid = some s → s.version = cver →
      applyDelta currentYear s delta = .ok (s2, ch) → ch ≠ [] →
      update_shipment currentYear now userId username role sid cver delta st =
        ⟨.ok { s2 with version := s.version + 1, last_modified_by := userId,
                       updated_at := now },
         ⟨replaceShipment st.shipments sid
            { s2 with version := s.version + 1, last_modified_by := userId,
                      updated_at := now },
          st.audit ++ [⟨userId, ("update"), ("shipments"), s.id, .updatedP ch, now⟩]⟩,
         [.updatedM s.id s2.job_number (s.version + 1) ch username]⟩) ∧
    statusCodeOf (.notFound ("Shipment not found")) = 404 := by
  refine ⟨?_, ?_, ?_, rfl⟩
  · intro hn
    unfold update_shipment
    rw [if_pos hrole, findVer_none_of_find_none cver hn, hn]
  · intro ex hex hne
    refine ⟨?_, rfl⟩
    unfold update_shipment
    rw [if_pos hrole, findVer_none_of_ver_ne hwf hex hne, hex]
  · intro s s2 ch hfind hver had hch
    unfold update_shipment
    rw [if_pos hrole, findVer_of_find hfind hver]
    simp only [had, if_neg hch]

/-- Witness for c1_update_contract at a concrete store: a stale expected
version yields the 409 conflict carrying the current version 2. -/
theorem c1_update_contract_witness :
    update_shipment 2026 5 9 ("alice") ("write") 1 1 [] exStoreA =
      ⟨.error (.conflict (conflictDetail 2)), exStoreA, []⟩ := by
  have h := c1_update_contract 2026 5 9 ("alice") ("write") 1 1 [] exStoreA
    (Or.inl rfl) (by decide)
  exact (h.2.1 exShipA (by decide) (by decide)).1

theorem update_step (currentYear now userId : Nat) (username role : String)
    (sid cver : Nat) (delta : List (String × String)) (st : Store) (hwf : storeWF st) :
    ((update_shipment currentYear now userId username role sid cver delta st).store = st ∧
     (update_shipment currentYear now userId username role sid cver delta st).broadcasts
       = []) ∨
    ((update_shipment currentYear now userId username role sid cver delta st).broadcasts
       ≠ [] ∧
     storeWF (update_shipment currentYear now userId username role sid cver delta st).store ∧
     ∃ v, verOf st sid = some v ∧
       verOf (update_shipment currentYear now userId username role sid cver delta st).store
         sid = some (v + 1) ∧
       ∀ j, j ≠ sid →
         verOf (update_shipment currentYear now userId username role sid cver delta st).store
           j = verOf st j) := by
  by_cases hrole : roleOK role
  · cases hfv : findShipmentVer st.shipments sid cver with
    | none =>
      cases hf : findShipment st.shipments sid with
      | none =>
        left
        unfold update_shipment
        rw [if_pos hrole, hfv, hf]
        exact ⟨rfl, rfl⟩
      | some ex =>
        left
        unfold update_shipment
        rw [if_pos hrole, hfv, hf]
        exact ⟨rfl, rfl⟩
    | some s =>
      have hs := List.find?_some hfv
      simp only [decide_eq_true_eq] at hs
      have hmem : s ∈ st.shipments := List.mem_of_find?_eq_some hfv
      cases had : applyDelta currentYear s delta with
      | error e =>
        left
        unfold update_shipment
        rw [if_pos hrole, hfv]
        simp [had]
      | ok pr =>
        obtain ⟨s2, ch⟩ := pr
        by_cases hch : ch = []
        · left
          subst hch
          unfold update_shipment
          rw [if_pos hrole, hfv]
          simp [had]
        · right
          have hid2 := applyDelta_id_ver currentYear delta s s2 ch had
          have h3id : ({ s2 with version := s.version + 1, last_modified_by := userId, updated_at := now } : Shipment).id = sid := by
            show s2.id = sid
            rw [hid2.1, hs.1]
          have hstore :
              (update_shipment currentYear now userId username role sid cver delta st).store =
              ⟨replaceShipment st.shipments sid
                 { s2 with version := s.version + 1, last_modified_by := userId, updated_at := now },
               st.audit ++
                 [⟨userId, ("update"), ("shipments"), s.id, .updatedP ch, now⟩]⟩ := by
            unfold update_shipment
            rw [if_pos hrole, hfv]
            simp only [had, if_neg hch]
          have hbc :
              (update_shipment currentYear now userId username role sid cver delta st).broadcasts =
              [.updatedM s.id s2.job_number (s.version + 1) ch username] := by
            unfold update_shipment
            rw [if_pos hrole, hfv]
            simp only [had, if_neg hch]
          refine ⟨by rw [hbc]; simp, ?_, s.version, ?_, ?_, ?_⟩
          · rw [hstore]
            show ((replaceShipment st.shipments sid _).map (fun s => s.id)).Nodup
            rw [replace_map_id _ h3id]
            exact hwf
          · rw [verOf, find_of_mem_id hwf hmem hs.1]
            rfl
          · rw [hstore, verOf]
            show ((findShipment (replaceShipment st.shipments sid _) sid).map
              (fun s => s.version)) = _
            rw [replace_find _ h3id, if_pos rfl, find_of_mem_id hwf hmem hs.1]
            rfl
          · intro j hj
            rw [hstore, verOf, verOf]
            show ((findShipment (replaceShipment st.shipments sid _) j).map
              (fun s => s.version)) = _
            rw [replace_find _ h3id, if_neg hj]
  · left
    unfold update_shipment
    rw [if_neg hrole]
    exact ⟨rfl, rfl⟩

theorem mkShipment_version (cy nid : Nat) (c : ShipmentCreate) (uid now : Nat)
    (s : Shipment) (h : mkShipment cy nid c uid now = .ok s) : s.version = 1 := by
  simp only [mkShipment, Bind.bind, Except.bind, Pure.pure, Except.pure] at h
  repeat' split at h
  all_goals first
    | exact Except.noConfusion h
    | (injection h with h2; subst h2; rfl)

theorem createLoop_version (cy now uid nid : Nat) (uname : String) (req : ShipmentCreate)
    (storeAt : Nat → Store) (faultAt : Nat → Option CommitFault) :
    ∀ (fuel attempt : Nat) (sleeps : List Nat) (cands : List String) (s : Shipment),
      (createLoop cy now uid nid uname req storeAt faultAt fuel attempt
          sleeps cands).response = .ok s →
      s.version = 1 := by
  intro fuel
  induction fuel with
  | zero =>
    intro attempt sleeps cands s h
    exact Except.noConfusion h
  | succ n ihf =>
    intro attempt sleeps cands s h
    rw [createLoop] at h
    split at h
    · exact Except.noConfusion h
    · rename_i s1 hmk
      split at h
      · injection h with h2
        subst h2
        exact mkShipment_version cy nid _ uid now s1 hmk
      · split at h
        · exact ihf _ _ _ _ h
        · exact Except.noConfusion h
      · exact Except.noConfusion h
      · exact Except.noConfusion h
      · exact Except.noConfusion h

/-- Claim C2, counterexample to the claim as stated: an update whose delta
assigns the current value of a field is a successful update (the endpoint
returns the record with status 200), yet the version is not incremented:
after this N = 1 successful update the version is still 1, not 1 + 1. -/
theorem c2_counterexample :
    (update_shipment 2026 5 9 ("alice") ("write") 1 1 [(("week"), ("W1"))] exStoreV1 =
      ⟨.ok exShipV1, exStoreV1, []⟩) ∧ exShipV1.version = 1 ∧ (1 : Nat) ≠ 1 + 1 := by
  exact ⟨by decide, rfl, by decide⟩

/-- Claim C2 (amended): a created record starts at version 1, and for every
record and every sequence of update requests, the final version equals the
starting version plus the number of requests that were accepted as real
mutations of that record (exactly those that emit a broadcast); a request
that is rejected, or whose delta changes nothing, leaves every version
unchanged, so no operation ever decreases or resets a version. -/
theorem c2_version_monotonic (currentYear now : Nat) :
    (∀ (reqs : List UpdReq) (st : Store) (i v : Nat),
      storeWF st → verOf st i = some v →
      verOf (runUpdates currentYear now reqs st) i =
        some (v + changedCount currentYear now i reqs st)) ∧
    (∀ (cy2 now2 userId newId : Nat) (username role : String) (req : ShipmentCreate)
       (storeAt : Nat → Store) (faultAt : Nat → Option CommitFault) (s : Shipment),
      (create_shipment cy2 now2 userId newId username role req storeAt faultAt).response =
        .ok s →
      s.version = 1) := by
  constructor
  · intro reqs
    induction reqs with
    | nil =>
      intro st i v hwf hv
      simpa [runUpdates, changedCount] using hv
    | cons r rs ih =>
      intro st i v hwf hv
      rw [runUpdates, changedCount]
      rcases update_step currentYear now r.userId r.username r.role r.sid r.cver r.delta
          st hwf with ⟨hst, hbc⟩ | ⟨hbc, hwf2, v2, hv2, hvout, hframe⟩
      · have hc0 : (if r.sid = i ∧ (applyReq currentYear now r st).broadcasts ≠ []
            then 1 else 0) = 0 := if_neg (fun hand => hand.2 hbc)
        have hst2 : (applyReq currentYear now r st).store = st := hst
        rw [hc0, hst2]
        rw [ih st i v hwf hv]
        rw [Nat.zero_add]
      · by_cases hsid : r.sid = i
        · subst hsid
          have hveq : v2 = v := by
            rw [hv2] at hv
            exact (Option.some.inj hv)
          subst hveq
          have hc1 : (if r.sid = r.sid ∧ (applyReq currentYear now r st).broadcasts ≠ []
              then 1 else 0) = 1 := if_pos ⟨rfl, hbc⟩
          rw [hc1]
          rw [ih (applyReq currentYear now r st).store r.sid (v2 + 1) hwf2 hvout]
          rw [Nat.add_assoc]
        · have hc0 : (if r.sid = i ∧ (applyReq currentYear now r st).broadcasts ≠ []
              then 1 else 0) = 0 := if_neg (fun hand => hsid hand.1)
          rw [hc0]
          have hvsame : verOf (applyReq currentYear now r st).store i = some v := by
            show verOf (update_shipment currentYear now r.userId r.username r.role r.sid
              r.cver r.delta st).store i = some v
            rw [hframe i (fun he => hsid he.symm)]
            exact hv
          rw [ih (applyReq currentYear now r st).store i v hwf2 hvsame]
          rw [Nat.zero_add]
  · intro cy2 now2 userId newId username role req storeAt faultAt s h
    unfold create_shipment at h
    split at h
    · exact createLoop_version cy2 now2 userId newId username req storeAt faultAt
        3 0 [] [] s h
    · exact Except.noConfusion h

/-- Witness for c2_version_monotonic: a one request trace on a concrete
store; the request really changes the week field, so the count is that of
the broadcast emitting step. -/
theorem c2_version_monotonic_witness :
    verOf (runUpdates 2026 5 [⟨9, ("alice"), ("write"), 1, 1, [(("week"), ("W2"))]⟩]
        exStoreV1) 1 =
      some (1 + changedCount 2026 5 1 [⟨9, ("alice"), ("write"), 1, 1,
        [(("week"), ("W2"))]⟩] exStoreV1) :=
  (c2_version_monotonic 2026 5).1 _ exStoreV1 1 1 (by decide) (by decide)

/-- Claim C10: an update whose delta assigns to every mentioned field its
current value passes the version check and returns success with the record
exactly as it was: no version increment, no restamping, no audit entry and
no broadcast, and the store is untouched. -/
theorem c10_noop_update (currentYear now userId : Nat) (username role : String)
    (sid cver : Nat) (delta : List (String × String)) (st : Store) (s : Shipment)
    (hrole : roleOK role)
    (hfind : findShipmentVer st.shipments sid cver = some s)
    (hnoop : ∀ f v, (f, v) ∈ delta → getField s f = v) :
    update_shipment currentYear now userId username role sid cver delta st =
      ⟨.ok s, st, []⟩ := by
  have hdelta := applyDelta_noop currentYear s delta hnoop
  unfold update_shipment
  rw [if_pos hrole, hfind]
  simp [hdelta]

/-- Witness for c10_noop_update: a two field delta carrying the current
values of status and week returns the record unchanged. -/
theorem c10_noop_update_witness :
    update_shipment 2026 5 9 ("bob") ("admin") 1 2
      [(("status"), ("")), (("week"), ("W1"))] exStoreA = ⟨.ok exShipA, exStoreA, []⟩ := by
  refine c10_noop_update 2026 5 9 ("bob") ("admin") 1 2 _ exStoreA exShipA
    (Or.inr rfl) (by decide) ?_
  intro f v hm
  rcases List.mem_cons.1 hm with h | hm2
  · cases h; rfl
  · rcases List.mem_cons.1 hm2 with h | h
    · cases h; rfl
    · cases h

theorem pyStartsWith_self (s : String) : pyStartsWith s s = true := by
  unfold pyStartsWith
  rw [List.isPrefixOf_iff_prefix]

theorem pyStartsWith_of_dot {base n : String}
    (h : pyStartsWith n (base ++ (".")) = true) : pyStartsWith n base = true := by
  unfold pyStartsWith at h ⊢
  rw [List.isPrefixOf_iff_prefix] at h ⊢
  have hd : (base ++ (".")).data = base.data ++ ('.' :: []) := rfl
  rw [hd] at h
  exact (List.prefix_append base.data ('.' :: [])).trans h

theorem filterMap_filter_startsWith (base : String) (existing : List String) :
    (existing.filter (fun n => pyStartsWith n base)).filterMap (jobSuffix base) =
    existing.filterMap (jobSuffix base) := by
  induction existing with
  | nil => rfl
  | cons n t ih =>
    by_cases hp : pyStartsWith n base
    · simp [List.filter_cons, hp, List.filterMap_cons, ih]
    · have hnone : jobSuffix base n = none := by
        unfold jobSuffix
        rw [if_neg ?_]
        intro hdot
        exact hp (pyStartsWith_of_dot hdot)
      simp [List.filter_cons, hp, List.filterMap_cons, hnone, ih]

theorem le_foldl_max_init (l : List Nat) : ∀ a, a ≤ l.foldl Nat.max a := by
  induction l with
  | nil => intro a; exact Nat.le_refl a
  | cons b t ih =>
    intro a
    exact le_trans (Nat.le_max_left a b) (ih (Nat.max a b))

theorem mem_le_foldl_max (l : List Nat) : ∀ (a x : Nat), x ∈ l → x ≤ l.foldl Nat.max a := by
  induction l with
  | nil =>
    intro a x hx
    cases hx
  | cons b t ih =>
    intro a x hx
    rcases List.mem_cons.1 hx with rfl | hxt
    · exact le_trans (Nat.le_max_right a x) (le_foldl_max_init t (Nat.max a x))
    · exact ih (Nat.max a b) x hxt

theorem foldl_max_cases (l : List Nat) : ∀ a, l.foldl Nat.max a = a ∨ l.foldl Nat.max a ∈ l := by
  induction l with
  | nil =>
    intro a
    left
    rfl
  | cons b t ih =>
    intro a
    rcases ih (Nat.max a b) with h | h
    · have hfold : (b :: t).foldl Nat.max a = Nat.max a b := h
      rw [hfold]
      rcases Nat.le_total a b with hab | hba
      · right
        have hmb : Nat.max a b = b :=
          Nat.le_antisymm (Nat.max_le.2 ⟨hab, Nat.le_refl b⟩) (Nat.le_max_right a b)
        rw [hmb]
        exact List.mem_cons_self b t
      · left
        have hma : Nat.max a b = a :=
          Nat.le_antisymm (Nat.max_le.2 ⟨Nat.le_refl a, hba⟩) (Nat.le_max_left a b)
        exact hma
    · right
      exact List.mem_cons_of_mem b h

/-- Claim C4: generate_unique_job_number returns the requested identifier
unchanged when no existing identifier equals it; otherwise it returns the
identifier followed by a dot and one plus the maximum numeric suffix M among
existing identifiers of the shape base.N (with M = 0 when none exist, so the
first collision yields suffix .1). -/
theorem c4_allocator (base : String) (existing : List String) :
    (base ∉ existing → generate_unique_job_number base existing = base) ∧
    (base ∈ existing → ∃ M,
      generate_unique_job_number base existing = base ++ (".") ++ toString (M + 1) ∧
      (∀ n ∈ existing, ∀ k, jobSuffix base n = some k → k ≤ M) ∧
      (M = 0 ∨ ∃ n ∈ existing, jobSuffix base n = some M)) := by
  constructor
  · intro hni
    have hout : base ∉ existing.filter (fun n => pyStartsWith n base) :=
      fun hmem => hni (List.mem_of_mem_filter hmem)
    unfold generate_unique_job_number
    rw [if_neg hout]
  · intro hmem
    have hfil : base ∈ existing.filter (fun n => pyStartsWith n base) :=
      List.mem_filter.2 ⟨hmem, pyStartsWith_self base⟩
    refine ⟨(existing.filterMap (jobSuffix base)).foldl Nat.max 0, ?_, ?_, ?_⟩
    · unfold generate_unique_job_number
      rw [if_pos hfil]
      rw [filterMap_filter_startsWith]
      rfl
    · intro n hn k hk
      have hk2 : k ∈ existing.filterMap (jobSuffix base) :=
        List.mem_filterMap.2 ⟨n, hn, hk⟩
      exact mem_le_foldl_max _ 0 k hk2
    · rcases foldl_max_cases (existing.filterMap (jobSuffix base)) 0 with h | h
      · left; exact h
      · right
        rcases List.mem_filterMap.1 h with ⟨n, hn, hk⟩
        exact ⟨n, hn, hk⟩

/-- Witness for c4_allocator: with existing identifiers 12 and 12.3, the
allocator returns 12.4, and 3 is the maximal suffix in use. -/
theorem c4_allocator_witness :
    ∃ M, generate_unique_job_number ("12") [("12"), ("12.3")] =
        ("12") ++ (".") ++ toString (M + 1) ∧
      (∀ n ∈ [("12"), ("12.3")], ∀ k, jobSuffix ("12") n = some k → k ≤ M) ∧
      (M = 0 ∨ ∃ n ∈ [("12"), ("12.3")], jobSuffix ("12") n = some M) :=
  (c4_allocator ("12") [("12"), ("12.3")]).2 (by decide)

/-- Claim C5: when the commit of a creation attempt keeps failing with a
duplicate key uniqueness violation, create_shipment re-runs the allocation
with fresh reads on every attempt, sleeps an increasing backoff between
attempts, stops after 3 attempts, and surfaces a 400 failure with the store
exactly as read (no record partially created); if a retry commits, the
freshly allocated identifier of that attempt is used. -/
theorem c5_create_retry (cy now userId newId : Nat) (username : String)
    (req : ShipmentCreate) (storeAt : Nat → Store) :
    (∀ (s0 s1 s2 : Shipment),
      mkShipment cy newId (reqWith req (generate_unique_job_number req.job_number
        (jobNumbers (storeAt 0)))) userId now = .ok s0 →
      mkShipment cy newId (reqWith req (generate_unique_job_number req.job_number
        (jobNumbers (storeAt 1)))) userId now = .ok s1 →
      mkShipment cy newId (reqWith req (generate_unique_job_number req.job_number
        (jobNumbers (storeAt 2)))) userId now = .ok s2 →
      create_shipment cy now userId newId username ("write") req storeAt
          (fun _ => some .dupKey) =
        ⟨.error (.badRequest ("Job number already exists")), storeAt 2, [1, 2],
         [generate_unique_job_number req.job_number (jobNumbers (storeAt 0)),
          generate_unique_job_number req.job_number (jobNumbers (storeAt 1)),
          generate_unique_job_number req.job_number (jobNumbers (storeAt 2))], [], 3⟩) ∧
    (∀ (s0 s1 : Shipment),
      mkShipment cy newId (reqWith req (generate_unique_job_number req.job_number
        (jobNumbers (storeAt 0)))) userId now = .ok s0 →
      mkShipment cy newId (reqWith req (generate_unique_job_number req.job_number
        (jobNumbers (storeAt 1)))) userId now = .ok s1 →
      create_shipment cy now userId newId username ("write") req storeAt
          (fun a => if a = 0 then some .dupKey else none) =
        ⟨.ok s1,
         ⟨(storeAt 1).shipments ++ [s1],
          (storeAt 1).audit ++ [⟨userId, ("create"), ("shipments"), newId,
            .createdP (createPairs (reqWith req (generate_unique_job_number req.job_number
              (jobNumbers (storeAt 1))))), now⟩]⟩,
         [1],
         [generate_unique_job_number req.job_number (jobNumbers (storeAt 0)),
          generate_unique_job_number req.job_number (jobNumbers (storeAt 1))],
         [.createdM s1.id s1.job_number username], 2⟩) := by
  constructor
  · intro s0 s1 s2 h0 h1 h2
    unfold create_shipment
    rw [if_pos (show roleOK ("write") from Or.inl rfl)]
    rw [show (3 : Nat) = 2 + 1 from rfl, createLoop]
    simp only [h0]
    rw [show (2 : Nat) = 1 + 1 from rfl, createLoop]
    simp only [h1]
    rw [show (1 : Nat) = 0 + 1 from rfl, createLoop]
    simp only [h2]
    simp
  · intro s0 s1 h0 h1
    unfold create_shipment
    rw [if_pos (show roleOK ("write") from Or.inl rfl)]
    rw [show (3 : Nat) = 2 + 1 from rfl, createLoop]
    simp only [h0]
    rw [show (2 : Nat) = 1 + 1 from rfl, createLoop]
    simp only [h1]
    simp

/-- Witness for c5_create_retry: with an empty store and a permanently
failing commit, creation gives up after 3 attempts, with backoffs 1 and 2
tenths of a second, all three allocations reading fresh state. -/
theorem c5_create_retry_witness :
    create_shipment 2026 5 9 42 ("alice") ("write")
      ⟨("123"), ("Test Job"), (""), (""), (""), (""), (""), (""), (""), (""), (""), ("")⟩
      (fun _ => ⟨[], []⟩) (fun _ => some .dupKey) =
      ⟨.error (.badRequest ("Job number already exists")), ⟨[], []⟩, [1, 2],
       [("123"), ("123"), ("123")], [], 3⟩ := by
  have h := (c5_create_retry 2026 5 9 42 ("alice")
    ⟨("123"), ("Test Job"), (""), (""), (""), (""), (""), (""), (""), (""), (""), ("")⟩
    (fun _ => ⟨[], []⟩)).1
    ⟨42, ("123"), ("Test Job"), (""), (""), (""), (""), (""), (""), (""), (""), (""), (""),
      9, 5, 5, 1, 9⟩
    ⟨42, ("123"), ("Test Job"), (""), (""), (""), (""), (""), (""), (""), (""), (""), (""),
      9, 5, 5, 1, 9⟩
    ⟨42, ("123"), ("Test Job"), (""), (""), (""), (""), (""), (""), (""), (""), (""), (""),
      9, 5, 5, 1, 9⟩
    (by decide) (by decide) (by decide)
  exact h

/-- Claim C6, counterexample to the claim as stated: deleting record 1
succeeds and captures the full snapshot, but the committed transaction list
is [[deleteRow], [insertAudit]]: no single transaction contains both the
row removal and the audit insertion, so the audit entry is not created in
the same transaction as the row removal. -/
theorem c6_counterexample :
    (delete_shipment 5 9 ("alice") ("write") 1 exStoreA).response =
      .ok ("Shipment deleted successfully") ∧
    ¬ ∃ tx ∈ (delete_shipment 5 9 ("alice") ("write") 1 exStoreA).txs,
        (∃ e ∈ tx, isDeleteRowE e = true) ∧ (∃ e2 ∈ tx, isInsertAuditE e2 = true) := by
  constructor
  · decide
  · decide

/-- Claim C6 (amended): deleting an existing record captures a full snapshot
of all 12 business fields into the audit entry, but that audit entry is
committed in a second transaction immediately after the transaction that
removes the row, not in the same transaction. -/
theorem c6_delete_snapshot (now userId : Nat) (username role : String) (sid : Nat)
    (st : Store) (s : Shipment) (hrole : roleOK role)
    (hfind : findShipment st.shipments sid = some s) :
    delete_shipment now userId username role sid st =
      ⟨.ok ("Shipment deleted successfully"),
       [[.deleteRow sid],
        [.insertAudit ⟨userId, ("delete"), ("shipments"), sid,
          .deletedP (businessSnapshot s), now⟩]],
       ⟨st.shipments.eraseP (fun r => r.id = sid),
        st.audit ++ [⟨userId, ("delete"), ("shipments"), sid,
          .deletedP (businessSnapshot s), now⟩]⟩,
       [.deletedM sid s.job_number username]⟩ ∧
    businessSnapshot s = businessFieldNames.map (fun f => (f, getField s f)) := by
  constructor
  · unfold delete_shipment
    rw [if_pos hrole, hfind]
  · rfl

/-- Witness for c6_delete_snapshot at the concrete single record store. -/
theorem c6_delete_snapshot_witness :
    delete_shipment 5 9 ("alice") ("write") 1 exStoreA =
      ⟨.ok ("Shipment deleted successfully"),
       [[.deleteRow 1],
        [.insertAudit ⟨9, ("delete"), ("shipments"), 1,
          .deletedP (businessSnapshot exShipA), 5⟩]],
       ⟨exStoreA.shipments.eraseP (fun r => r.id = 1),
        exStoreA.audit ++ [⟨9, ("delete"), ("shipments"), 1,
          .deletedP (businessSnapshot exShipA), 5⟩]⟩,
       [.deletedM 1 exShipA.job_number ("alice")]⟩ :=
  (c6_delete_snapshot 5 9 ("alice") ("write") 1 exStoreA exShipA
    (Or.inl rfl) (by decide)).1

/-- Claim C7: the record boundary validators only let through values in
contract: an accepted job number is the stripped input, non empty, whose
base before the first dot is numeric; an accepted date field value is empty
or the rendering of a date parsed from the input under one of the four
accepted formats; an accepted status is empty or one of the four fixed
statuses; accepted free text fields are capped at 1000 characters and
invoice numbers at 50. -/
theorem c7_validators :
    (∀ v r, validate_job_number v = .ok r →
      pyStrip v ≠ ("") ∧ r = pyStrip v ∧
      ∃ m, strToNatQ ((pySplitOnChar ('.') r).headD ("")) = some m) ∧
    (∀ cy key v r, validate_date_fields cy key v = .ok r →
      r = ("") ∨ ∃ y m d, tryDateFormats cy (pyStrip v) = some (y, m, d) ∧
        r = renderDate y m d) ∧
    (∀ v r, validate_status v = .ok r → r = ("") ∨ r ∈ valid_statuses) ∧
    (∀ key v r, validate_text_fields key v = .ok r → pyLen r ≤ 1000) ∧
    (∀ v r, validate_invoice_number v = .ok r → pyLen r ≤ 50) := by
  refine ⟨?_, ?_, ?_, ?_, ?_⟩
  · intro v r h
    simp only [validate_job_number] at h
    by_cases h1 : pyStrip v = ("")
    · rw [if_pos h1] at h
      exact Except.noConfusion h
    · rw [if_neg h1] at h
      by_cases h2 : (strToNatQ ((pySplitOnChar ('.') (pyStrip v)).headD (""))).isNone
      · rw [if_pos h2] at h
        exact Except.noConfusion h
      · rw [if_neg h2] at h
        by_cases h3 : pyLen ((pySplitOnChar ('.') (pyStrip v)).headD ("")) > 15
        · rw [if_pos h3] at h
          exact Except.noConfusion h
        · rw [if_neg h3] at h
          injection h with h4
          subst h4
          refine ⟨h1, rfl, ?_⟩
          cases hsn : strToNatQ ((pySplitOnChar ('.') (pyStrip v)).headD ("")) with
          | none => exact absurd (by rw [hsn]; rfl) h2
          | some m => exact ⟨m, rfl⟩
  · intro cy key v r h
    simp only [validate_date_fields] at h
    by_cases h1 : v = ("")
    · rw [if_pos h1] at h
      injection h with h2
      left
      exact h2.symm
    · rw [if_neg h1] at h
      by_cases h2 : pyToLower (pyStrip v) ∈ pyEmptyDateValues
      · rw [if_pos h2] at h
        injection h with h3
        left
        exact h3.symm
      · rw [if_neg h2] at h
        cases htf : tryDateFormats cy (pyStrip v) with
        | none =>
          rw [htf] at h
          exact Except.noConfusion h
        | some t =>
          obtain ⟨y, m, d⟩ := t
          rw [htf] at h
          injection h with h3
          right
          exact ⟨y, m, d, rfl, h3.symm⟩
  · intro v r h
    simp only [validate_status] at h
    by_cases h1 : pyStrip v = ("")
    · rw [if_pos h1] at h
      injection h with h2
      left
      exact h2.symm
    · rw [if_neg h1] at h
      by_cases h2 : pyStrip v ∈ valid_statuses
      · rw [if_pos h2] at h
        injection h with h3
        right
        rw [← h3]
        exact h2
      · rw [if_neg h2] at h
        exact Except.noConfusion h
  · intro key v r h
    simp only [validate_text_fields] at h
    by_cases h1 : v = ("")
    · rw [if_pos h1] at h
      injection h with h2
      rw [← h2]
      exact Nat.zero_le 1000
    · rw [if_neg h1] at h
      by_cases h2 : pyLen (pyStrip v) > textMaxLength key
      · rw [if_pos h2] at h
        exact Except.noConfusion h
      · rw [if_neg h2] at h
        injection h with h3
        subst h3
        have hmax : textMaxLength key ≤ 1000 := by
          unfold textMaxLength
          split <;> omega
        omega
  · intro v r h
    simp only [validate_invoice_number] at h
    by_cases h1 : v = ("")
    · rw [if_pos h1] at h
      injection h with h2
      rw [← h2]
      exact Nat.zero_le 50
    · rw [if_neg h1] at h
      by_cases h2 : pyLen (pyStrip v) > 50
      · rw [if_pos h2] at h
        exact Except.noConfusion h
      · rw [if_neg h2] at h
        by_cases h3 : (pyStrip v).data.all invoiceCharOK
        · rw [if_pos h3] at h
          injection h with h4
          subst h4
          omega
        · rw [if_neg h3] at h
          exact Except.noConfusion h

/-- Witness for c7_validators: the five validator contracts instantiated at
concrete accepted inputs. -/
theorem c7_validators_witness :
    (pyStrip ("  123.4 ") ≠ ("") ∧ ("123.4") = pyStrip ("  123.4 ") ∧
      ∃ m, strToNatQ ((pySplitOnChar ('.') ("123.4")).headD ("")) = some m) ∧
    (("01/02/26") = ("") ∨ ∃ y m d,
      tryDateFormats 2026 (pyStrip ("1/2/26")) = some (y, m, d) ∧
      ("01/02/26") = renderDate y m d) ∧
    (("partial_release") = ("") ∨ ("partial_release") ∈ valid_statuses) ∧
    pyLen ("some notes") ≤ 1000 ∧ pyLen ("INV-100") ≤ 50 :=
  ⟨c7_validators.1 ("  123.4 ") ("123.4") (by decide),
   c7_validators.2.1 2026 ("created") ("1/2/26") ("01/02/26") (by decide),
   c7_validators.2.2.1 (" partial_release ") ("partial_release") (by decide),
   c7_validators.2.2.2.1 ("qc_notes") (" some notes ") ("some notes") (by decide),
   c7_validators.2.2.2.2 (" INV-100 ") ("INV-100") (by decide)⟩

theorem disconnect_eq_erase (act : List Nat) (c : Nat) :
    disconnectConn act c = act.erase c := by
  unfold disconnectConn
  by_cases h : c ∈ act
  · rw [if_pos h]
  · rw [if_neg h]
    exact (List.erase_of_not_mem h).symm

theorem broadcastLoop_effects (fails : Nat → Bool) :
    ∀ (l act : List Nat), (broadcastLoop fails l act).2 = fanEffectsFor fails l := by
  intro l
  induction l with
  | nil =>
    intro act
    rfl
  | cons c rest ih =>
    intro act
    cases hf : fails c with
    | true => simp [broadcastLoop, fanEffectsFor, hf, ih]
    | false => simp [broadcastLoop, fanEffectsFor, hf, ih]

theorem broadcastLoop_final (fails : Nat → Bool) :
    ∀ (l act : List Nat), act.Nodup →
      (broadcastLoop fails l act).1 =
        act.filter (fun x => !(fails x && decide (x ∈ l))) := by
  intro l
  induction l with
  | nil =>
    intro act _
    simp [broadcastLoop]
  | cons c rest ih =>
    intro act hnd
    cases hf : fails c with
    | true =>
      have hstep : (broadcastLoop fails (c :: rest) act).1 =
          (broadcastLoop fails rest (disconnectConn act c)).1 := by
        simp [broadcastLoop, hf]
      rw [hstep, disconnect_eq_erase, ih (act.erase c) (hnd.erase c)]
      rw [List.Nodup.erase_eq_filter hnd]
      rw [List.filter_filter]
      apply List.filter_congr
      intro x hx
      by_cases hxc : x = c
      · subst hxc
        simp [hf]
      · simp [hxc, List.mem_cons]
    | false =>
      have hstep : (broadcastLoop fails (c :: rest) act).1 =
          (broadcastLoop fails rest act).1 := by
        simp [broadcastLoop, hf]
      rw [hstep, ih act hnd]
      apply List.filter_congr
      intro x hx
      by_cases hxc : x = c
      · subst hxc
        simp [hf, List.mem_cons]
      · simp [hxc, List.mem_cons]

theorem loggedMsg_not_mem_fanEffects (fails : Nat → Bool) (s : String) :
    ∀ l, FanEffect.loggedMsg s ∉ fanEffectsFor fails l := by
  intro l
  induction l with
  | nil => simp [fanEffectsFor]
  | cons c rest ih =>
    cases hf : fails c with
    | true => simp [fanEffectsFor, hf, ih]
    | false => simp [fanEffectsFor, hf, ih]

/-- Claim C8, counterexample to the claim as stated: a session whose channel
write fails is dropped from the active set, but no log entry is produced
anywhere in the effect trace of the broadcast (the claim says the failure is
logged): with sessions 1 and 2 and session 2 failing, the trace is exactly
send, failed send, drop, and the surviving set is [1]. -/
theorem c8_counterexample :
    (cm_broadcast (fun c => c == 2) [1, 2]).2 =
      [.sentOk 1, .sendFailed 2, .droppedConn 2] ∧
    (cm_broadcast (fun c => c == 2) [1, 2]).1 = [1] ∧
    (∀ e ∈ (cm_broadcast (fun c => c == 2) [1, 2]).2, isLoggedE e = false) := by
  refine ⟨by decide, by decide, by decide⟩

/-- Claim C8 (amended): a broadcast attempts one channel write per connected
session; a session whose write fails is dropped from the active set without
being logged and is not retried, and the surviving active set is exactly the
sessions whose write succeeded; the failure never escalates to the writer:
the update response is computed independently of the fan out outcome. -/
theorem c8_fanout (fails : Nat → Bool) (act : List Nat) (hnd : act.Nodup) :
    (cm_broadcast fails act).1 = act.filter (fun c => !(fails c)) ∧
    (cm_broadcast fails act).2 = fanEffectsFor fails act ∧
    (∀ s, FanEffect.loggedMsg s ∉ (cm_broadcast fails act).2) ∧
    (∀ (currentYear now userId : Nat) (username role : String) (sid cver : Nat)
       (delta : List (String × String)) (st : Store),
      (update_and_fanout currentYear now userId username role sid cver delta st
          fails act).1 =
        update_shipment currentYear now userId username role sid cver delta st) := by
  refine ⟨?_, ?_, ?_, ?_⟩
  · rw [cm_broadcast, broadcastLoop_final fails act act hnd]
    apply List.filter_congr
    intro x hx
    simp [hx]
  · exact broadcastLoop_effects fails act act
  · intro s
    rw [cm_broadcast, broadcastLoop_effects fails act act]
    exact loggedMsg_not_mem_fanEffects fails s act
  · intro currentYear now userId username role sid cver delta st
    rfl

/-- Witness for c8_fanout: two sessions, the second failing; the surviving
set and the effect trace instantiated concretely. -/
theorem c8_fanout_witness :
    (cm_broadcast (fun c => c == 7) [3, 7]).1 =
      [3, 7].filter (fun c => !((fun c => c == 7) c)) ∧
    (cm_broadcast (fun c => c == 7) [3, 7]).2 = fanEffectsFor (fun c => c == 7) [3, 7] :=
  ⟨(c8_fanout (fun c => c == 7) [3, 7] (by decide)).1,
   (c8_fanout (fun c => c == 7) [3, 7] (by decide)).2.1⟩

theorem find_map_replace (d : List (String × String)) (k v : String) :
    (d.map (fun p => if p.1 = k then (k, v) else p)).find? (fun p => p.1 = k) =
      (d.find? (fun p => p.1 = k)).map (fun _ => (k, v)) := by
  induction d with
  | nil => rfl
  | cons a t ih =>
    by_cases ha : a.1 = k
    · rw [List.map_cons, if_pos ha]
      rw [List.find?_cons_of_pos _ (by simp), List.find?_cons_of_pos _ (by simpa using ha)]
      rfl
    · rw [List.map_cons, if_neg ha]
      rw [List.find?_cons_of_neg _ (by simpa using ha),
          List.find?_cons_of_neg _ (by simpa using ha)]
      exact ih

theorem find_map_replace_ne (d : List (String × String)) (k v k2 : String) (h : k2 ≠ k) :
    (d.map (fun p => if p.1 = k then (k, v) else p)).find? (fun p => p.1 = k2) =
      d.find? (fun p => p.1 = k2) := by
  induction d with
  | nil => rfl
  | cons a t ih =>
    by_cases ha : a.1 = k
    · rw [List.map_cons, if_pos ha]
      rw [List.find?_cons_of_neg _ (by simp only [decide_eq_true_eq]; intro he; exact h he.symm),
          List.find?_cons_of_neg _ (by simp only [decide_eq_true_eq]; intro he; exact h (he ▸ ha))]
      exact ih
    · rw [List.map_cons, if_neg ha]
      by_cases ha2 : a.1 = k2
      · rw [List.find?_cons_of_pos _ (by simpa using ha2),
            List.find?_cons_of_pos _ (by simpa using ha2)]
      · rw [List.find?_cons_of_neg _ (by simpa using ha2),
            List.find?_cons_of_neg _ (by simpa using ha2)]
        exact ih

theorem find?_append_none {α : Type} (p : α → Bool) :
    ∀ (l1 l2 : List α), l1.find? p = none → (l1 ++ l2).find? p = l2.find? p := by
  intro l1 l2
  induction l1 with
  | nil =>
    intro _
    rfl
  | cons a t ih =>
    intro h
    cases hp : p a with
    | true =>
      rw [List.find?_cons_of_pos _ hp] at h
      exact Option.noConfusion h
    | false =>
      rw [List.find?_cons_of_neg _ (by simp [hp])] at h
      rw [List.cons_append, List.find?_cons_of_neg _ (by simp [hp])]
      exact ih h

theorem find?_append_some {α : Type} (p : α → Bool) {x : α} :
    ∀ (l1 l2 : List α), l1.find? p = some x → (l1 ++ l2).find? p = some x := by
  intro l1 l2
  induction l1 with
  | nil =>
    intro h
    exact Option.noConfusion h
  | cons a t ih =>
    intro h
    cases hp : p a with
    | true =>
      rw [List.find?_cons_of_pos _ hp] at h
      rw [List.cons_append, List.find?_cons_of_pos _ hp]
      exact h
    | false =>
      rw [List.find?_cons_of_neg _ (by simp [hp])] at h
      rw [List.cons_append, List.find?_cons_of_neg _ (by simp [hp])]
      exact ih h

theorem dictGet_dictSet_self (d : List (String × String)) (k v : String) :
    dictGet (dictSet d k v) k = some v := by
  unfold dictSet
  by_cases hs : (dictGet d k).isSome
  · rw [if_pos hs]
    unfold dictGet at hs ⊢
    rw [find_map_replace]
    cases hfd : (d.find? (fun p => p.1 = k)) with
    | none => rw [hfd] at hs; simp at hs
    | some a => rfl
  · rw [if_neg hs]
    unfold dictGet at hs ⊢
    have hfd : d.find? (fun p => p.1 = k) = none := by
      cases hfd2 : d.find? (fun p => p.1 = k) with
      | none => rfl
      | some a =>
        rw [hfd2] at hs
        simp at hs
    rw [find?_append_none _ _ _ hfd, List.find?_cons_of_pos _ (by simp)]
    rfl

theorem dictGet_dictSet_ne (d : List (String × String)) (k v k2 : String) (h : k2 ≠ k) :
    dictGet (dictSet d k v) k2 = dictGet d k2 := by
  unfold dictSet
  by_cases hs : (dictGet d k).isSome
  · rw [if_pos hs]
    unfold dictGet
    rw [find_map_replace_ne d k v k2 h]
  · rw [if_neg hs]
    unfold dictGet
    cases hfd : (d.find? (fun p => p.1 = k2)) with
    | none =>
      rw [find?_append_none _ _ _ hfd,
          List.find?_cons_of_neg _ (by simp only [decide_eq_true_eq]; intro he; exact h he.symm)]
      rfl
    | some a =>
      rw [find?_append_some _ _ _ hfd]

theorem dictGet_eq_none_of_not_mem_keys (d : List (String × String)) (k : String)
    (h : k ∉ d.map Prod.fst) : dictGet d k = none := by
  unfold dictGet
  have : d.find? (fun p => p.1 = k) = none := by
    rw [List.find?_eq_none]
    intro p hp
    simp only [decide_eq_true_eq]
    intro he
    exact h (he ▸ List.mem_map_of_mem Prod.fst hp)
  rw [this]
  rfl

theorem mergeExcept_get_of_none (field : String) :
    ∀ (latest acc : List (String × String)) (k : String),
      dictGet latest k = none →
      dictGet (mergeExcept field acc latest) k = dictGet acc k := by
  intro latest
  induction latest with
  | nil =>
    intro acc k _
    rfl
  | cons kv rest ih =>
    intro acc k h
    by_cases hk1 : kv.1 = k
    · exfalso
      unfold dictGet at h
      rw [List.find?_cons_of_pos _ (by simpa using hk1)] at h
      simp at h
    · have hrest : dictGet rest k = none := by
        unfold dictGet at h ⊢
        rw [List.find?_cons_of_neg _ (by simpa using hk1)] at h
        exact h
      have hstep : mergeExcept field acc (kv :: rest) =
          mergeExcept field (if kv.1 ≠ field ∧ (dictGet acc kv.1).isSome
            then dictSet acc kv.1 kv.2 else acc) rest := rfl
      rw [hstep, ih _ k hrest]
      by_cases hcond : kv.1 ≠ field ∧ (dictGet acc kv.1).isSome
      · rw [if_pos hcond, dictGet_dictSet_ne _ _ _ _ (fun he => hk1 he.symm)]
      · rw [if_neg hcond]

theorem mergeExcept_get_of_some (field : String) :
    ∀ (latest acc : List (String × String)) (k v2 : String),
      (latest.map Prod.fst).Nodup → k ≠ field →
      dictGet acc k ≠ none → dictGet latest k = some v2 →
      dictGet (mergeExcept field acc latest) k = some v2 := by
  intro latest
  induction latest with
  | nil =>
    intro acc k v2 _ _ _ h
    simp [dictGet] at h
  | cons kv rest ih =>
    intro acc k v2 hnd hkf hacc h
    simp only [List.map_cons, List.nodup_cons] at hnd
    have hstep : mergeExcept field acc (kv :: rest) =
        mergeExcept field (if kv.1 ≠ field ∧ (dictGet acc kv.1).isSome
          then dictSet acc kv.1 kv.2 else acc) rest := rfl
    rw [hstep]
    by_cases hk1 : kv.1 = k
    · have hv2 : kv.2 = v2 := by
        unfold dictGet at h
        rw [List.find?_cons_of_pos _ (by simpa using hk1)] at h
        exact Option.some.inj h
      have hrest_none : dictGet rest k = none := by
        apply dictGet_eq_none_of_not_mem_keys
        rw [← hk1]
        exact hnd.1
      have hcond : kv.1 ≠ field ∧ (dictGet acc kv.1).isSome := by
        constructor
        · rw [hk1]
          exact hkf
        · rw [hk1]
          exact Option.ne_none_iff_isSome.1 hacc
      rw [if_pos hcond, mergeExcept_get_of_none field rest _ k hrest_none, hk1,
          dictGet_dictSet_self, hv2]
    · have hrest : dictGet rest k = some v2 := by
        unfold dictGet at h ⊢
        rw [List.find?_cons_of_neg _ (by simpa using hk1)] at h
        exact h
      have hacc2 : dictGet (if kv.1 ≠ field ∧ (dictGet acc kv.1).isSome
          then dictSet acc kv.1 kv.2 else acc) k ≠ none := by
        by_cases hcond : kv.1 ≠ field ∧ (dictGet acc kv.1).isSome
        · rw [if_pos hcond, dictGet_dictSet_ne _ _ _ _ (fun he => hk1 he.symm)]
          exact hacc
        · rw [if_neg hcond]
          exact hacc
      exact ih _ k v2 hnd.2 hkf hacc2 hrest

theorem mergeAll_get_of_none :
    ∀ (latest acc : List (String × String)) (k : String),
      dictGet latest k = none →
      dictGet (mergeAll acc latest) k = dictGet acc k := by
  intro latest
  induction latest with
  | nil =>
    intro acc k _
    rfl
  | cons kv rest ih =>
    intro acc k h
    by_cases hk1 : kv.1 = k
    · exfalso
      unfold dictGet at h
      rw [List.find?_cons_of_pos _ (by simpa using hk1)] at h
      simp at h
    · have hrest : dictGet rest k = none := by
        unfold dictGet at h ⊢
        rw [List.find?_cons_of_neg _ (by simpa using hk1)] at h
        exact h
      have hstep : mergeAll acc (kv :: rest) =
          mergeAll (if (dictGet acc kv.1).isSome
            then dictSet acc kv.1 kv.2 else acc) rest := rfl
      rw [hstep, ih _ k hrest]
      by_cases hcond : (dictGet acc kv.1).isSome
      · rw [if_pos hcond, dictGet_dictSet_ne _ _ _ _ (fun he => hk1 he.symm)]
      · rw [if_neg hcond]

theorem mergeAll_get_of_some :
    ∀ (latest acc : List (String × String)) (k v2 : String),
      (latest.map Prod.fst).Nodup →
      dictGet acc k ≠ none → dictGet latest k = some v2 →
      dictGet (mergeAll acc latest) k = some v2 := by
  intro latest
  induction latest with
  | nil =>
    intro acc k v2 _ _ h
    simp [dictGet] at h
  | cons kv rest ih =>
    intro acc k v2 hnd hacc h
    simp only [List.map_cons, List.nodup_cons] at hnd
    have hstep : mergeAll acc (kv :: rest) =
        mergeAll (if (dictGet acc kv.1).isSome
          then dictSet acc kv.1 kv.2 else acc) rest := rfl
    rw [hstep]
    by_cases hk1 : kv.1 = k
    · have hv2 : kv.2 = v2 := by
        unfold dictGet at h
        rw [List.find?_cons_of_pos _ (by simpa using hk1)] at h
        exact Option.some.inj h
      have hrest_none : dictGet rest k = none := by
        apply dictGet_eq_none_of_not_mem_keys
        rw [← hk1]
        exact hnd.1
      have hcond : (dictGet acc kv.1).isSome := by
        rw [hk1]
        exact Option.ne_none_iff_isSome.1 hacc
      rw [if_pos hcond, mergeAll_get_of_none rest _ k hrest_none, hk1,
          dictGet_dictSet_self, hv2]
    · have hrest : dictGet rest k = some v2 := by
        unfold dictGet at h ⊢
        rw [List.find?_cons_of_neg _ (by simpa using hk1)] at h
        exact h
      have hacc2 : dictGet (if (dictGet acc kv.1).isSome
          then dictSet acc kv.1 kv.2 else acc) k ≠ none := by
        by_cases hcond : (dictGet acc kv.1).isSome
        · rw [if_pos hcond, dictGet_dictSet_ne _ _ _ _ (fun he => hk1 he.symm)]
          exact hacc
        · rw [if_neg hcond]
          exact hacc
      exact ih _ k v2 hnd.2 hacc2 hrest

theorem updateLocalData_get_field (userId : Nat) (sh : List (String × String))
    (field nv : String) (upd : List (String × String))
    (h1 : field ≠ ("version")) (h2 : field ≠ ("last_modified_by")) :
    dictGet (updateLocalData userId sh field nv upd) field = some nv := by
  unfold updateLocalData
  rw [dictGet_dictSet_ne _ _ _ _ h2, dictGet_dictSet_ne _ _ _ _ h1, dictGet_dictSet_self]

theorem updateLocalData_get_other (userId : Nat) (sh : List (String × String))
    (field nv : String) (upd : List (String × String)) (k : String)
    (hk1 : k ≠ field) (hk2 : k ≠ ("version")) (hk3 : k ≠ ("last_modified_by")) :
    dictGet (updateLocalData userId sh field nv upd) k = dictGet sh k := by
  unfold updateLocalData
  rw [dictGet_dictSet_ne _ _ _ _ hk3, dictGet_dictSet_ne _ _ _ _ hk2,
      dictGet_dictSet_ne _ _ _ _ hk1]

/-- Claim C3: when the first versioned update from the cell edit handler
comes back 409 and the refetch of the authoritative record succeeds: if the
edited field is unchanged between the last known state and the authoritative
state, no dialog is shown, all other fields are adopted from the
authoritative state, the handler keeps its intended value and retries
exactly once with the authoritative version; if the edited field was changed
remotely, both values are surfaced to the human actor, and the actor either
retries with the local value at the authoritative version (Yes) or discards
the local edit and adopts the remote value (No). -/
theorem c3_conflict_resolution (c : ApiClientObj) (userId : Nat) (choiceYes : Bool)
    (sh latest : List (String × String)) (field : String) (raw : Option String)
    (sid cv lv : Nat) (nv ov lfv : String)
    (hm1 : c.hasMethod ("update_shipment_with_version") = true)
    (hm2 : c.hasMethod ("get_shipment_by_id") = true)
    (hnv : newValOf field raw = nv)
    (hov : oldValOf sh field = ov)
    (hchg : nv ≠ ov)
    (hsid : (strToNatQ (dictGetD sh ("id") ("0"))).getD 0 = sid)
    (hcv : pyIntOr1 (dictGet sh ("version")) = cv)
    (hr1s : (c.updateShipmentWithVersion sid [(field, nv)] cv).success = false)
    (hr1c : (c.updateShipmentWithVersion sid [(field, nv)] cv).status_code = 409)
    (hlrs : (c.getShipmentById sid).success = true)
    (hlrd : (c.getShipmentById sid).data = latest)
    (hlv : latestVersionOf latest cv = lv)
    (hlfv : dictGetD latest field ("") = lfv)
    (hfv : field ≠ ("version")) (hfm : field ≠ ("last_modified_by"))
    (hndl : (latest.map Prod.fst).Nodup) :
    (lfv = ov →
      (on_item_changed c userId choiceYes sh field raw).dialog = none ∧
      (on_item_changed c userId choiceYes sh field raw).requests =
        [(sid, [(field, nv)], cv), (sid, [(field, nv)], lv)] ∧
      (on_item_changed c userId choiceYes sh field raw).fetches = [sid] ∧
      ((c.updateShipmentWithVersion sid [(field, nv)] lv).success = true →
        dictGet (on_item_changed c userId choiceYes sh field raw).shipment field =
          some nv ∧
        (∀ k v2, k ≠ field → k ≠ ("version") → k ≠ ("last_modified_by") →
          dictGet sh k ≠ none → dictGet latest k = some v2 →
          dictGet (on_item_changed c userId choiceYes sh field raw).shipment k =
            some v2))) ∧
    (lfv ≠ ov →
      (on_item_changed c userId choiceYes sh field raw).dialog = some (nv, lfv) ∧
      (choiceYes = true →
        (on_item_changed c userId choiceYes sh field raw).requests =
          [(sid, [(field, nv)], cv), (sid, [(field, nv)], lv)]) ∧
      (choiceYes = false →
        (on_item_changed c userId choiceYes sh field raw).requests =
          [(sid, [(field, nv)], cv)] ∧
        (on_item_changed c userId choiceYes sh field raw).cellText = some lfv ∧
        (∀ v2, dictGet sh field ≠ none → dictGet latest field = some v2 →
          dictGet (on_item_changed c userId choiceYes sh field raw).shipment field =
            some v2))) := by
  subst hnv hov hsid hcv hlv hlfv hlrd
  constructor
  · intro hsame
    have hcond : ¬ (dictGetD (c.getShipmentById ((strToNatQ
        (dictGetD sh ("id") ("0"))).getD 0)).data field ("") ≠
          oldValOf sh field ∧ ¬ choiceYes) := by
      intro hand
      exact hand.1 hsame
    have hout : on_item_changed c userId choiceYes sh field raw =
        (if (c.updateShipmentWithVersion ((strToNatQ (dictGetD sh ("id") ("0"))).getD 0)
              [(field, newValOf field raw)]
              (latestVersionOf (c.getShipmentById ((strToNatQ
                (dictGetD sh ("id") ("0"))).getD 0)).data
                (pyIntOr1 (dictGet sh ("version"))))).success then
          ⟨[(((strToNatQ (dictGetD sh ("id") ("0"))).getD 0), [(field, newValOf field raw)],
             pyIntOr1 (dictGet sh ("version"))),
            (((strToNatQ (dictGetD sh ("id") ("0"))).getD 0), [(field, newValOf field raw)],
             latestVersionOf (c.getShipmentById ((strToNatQ
               (dictGetD sh ("id") ("0"))).getD 0)).data (pyIntOr1 (dictGet sh ("version"))))],
           [((strToNatQ (dictGetD sh ("id") ("0"))).getD 0)],
           (if dictGetD (c.getShipmentById ((strToNatQ
               (dictGetD sh ("id") ("0"))).getD 0)).data field ("") ≠ oldValOf sh field
            then some (newValOf field raw, dictGetD (c.getShipmentById ((strToNatQ
              (dictGetD sh ("id") ("0"))).getD 0)).data field ("")) else none),
           updateLocalData userId
             (mergeExcept field sh (c.getShipmentById ((strToNatQ
               (dictGetD sh ("id") ("0"))).getD 0)).data) field (newValOf field raw)
             (c.updateShipmentWithVersion ((strToNatQ (dictGetD sh ("id") ("0"))).getD 0)
               [(field, newValOf field raw)]
               (latestVersionOf (c.getShipmentById ((strToNatQ
                 (dictGetD sh ("id") ("0"))).getD 0)).data
                 (pyIntOr1 (dictGet sh ("version"))))).data,
           (if field ∈ clientDateFields ∧ newValOf field raw = ("") then some ("-") else none),
           some ("Changes saved successfully"), none⟩
        else
          ⟨[(((strToNatQ (dictGetD sh ("id") ("0"))).getD 0), [(field, newValOf field raw)],
             pyIntOr1 (dictGet sh ("version"))),
            (((strToNatQ (dictGetD sh ("id") ("0"))).getD 0), [(field, newValOf field raw)],
             latestVersionOf (c.getShipmentById ((strToNatQ
               (dictGetD sh ("id") ("0"))).getD 0)).data (pyIntOr1 (dictGet sh ("version"))))],
           [((strToNatQ (dictGetD sh ("id") ("0"))).getD 0)],
           (if dictGetD (c.getShipmentById ((strToNatQ
               (dictGetD sh ("id") ("0"))).getD 0)).data field ("") ≠ oldValOf sh field
            then some (newValOf field raw, dictGetD (c.getShipmentById ((strToNatQ
              (dictGetD sh ("id") ("0"))).getD 0)).data field ("")) else none),
           mergeExcept field sh (c.getShipmentById ((strToNatQ
             (dictGetD sh ("id") ("0"))).getD 0)).data,
           some (oldValOf sh field), none,
           some (("Failed to save after resolving conflict: ") ++
             (c.updateShipmentWithVersion ((strToNatQ (dictGetD sh ("id") ("0"))).getD 0)
               [(field, newValOf field raw)]
               (latestVersionOf (c.getShipmentById ((strToNatQ
                 (dictGetD sh ("id") ("0"))).getD 0)).data
                 (pyIntOr1 (dictGet sh ("version"))))).error)⟩) := by
      simp only [on_item_changed, if_neg hchg, hm1, hm2, hr1s, hr1c, hlrs, if_neg hcond,
        Bool.false_eq_true, if_false, if_true]
    have hdlg : (if dictGetD (c.getShipmentById ((strToNatQ
        (dictGetD sh ("id") ("0"))).getD 0)).data field ("") ≠ oldValOf sh field
        then some (newValOf field raw, dictGetD (c.getShipmentById ((strToNatQ
          (dictGetD sh ("id") ("0"))).getD 0)).data field ("")) else none) =
        (none : Option (String × String)) := by
      rw [if_neg (fun hne => hne hsame)]
    by_cases hr2 : (c.updateShipmentWithVersion ((strToNatQ
        (dictGetD sh ("id") ("0"))).getD 0) [(field, newValOf field raw)]
        (latestVersionOf (c.getShipmentById ((strToNatQ
          (dictGetD sh ("id") ("0"))).getD 0)).data
          (pyIntOr1 (dictGet sh ("version"))))).success = true
    · rw [hout, if_pos hr2]
      refine ⟨hdlg, rfl, rfl, ?_⟩
      intro _
      constructor
      · exact updateLocalData_get_field userId _ field _ _ hfv hfm
      · intro k v2 hk1 hk2 hk3 hshk hlk
        rw [updateLocalData_get_other userId _ field _ _ k hk1 hk2 hk3]
        exact mergeExcept_get_of_some field _ sh k v2 hndl hk1 hshk hlk
    · rw [hout, if_neg hr2]
      refine ⟨hdlg, rfl, rfl, ?_⟩
      intro hr2t
      exact absurd hr2t hr2
  · intro hdiff
    by_cases hcy : choiceYes = true
    · subst hcy
      have hcond : ¬ (dictGetD (c.getShipmentById ((strToNatQ
          (dictGetD sh ("id") ("0"))).getD 0)).data field ("") ≠
            oldValOf sh field ∧ ¬ True) := by
        intro hand
        exact hand.2 trivial
      have hout2 : (on_item_changed c userId true sh field raw).dialog =
          some (newValOf field raw, dictGetD (c.getShipmentById ((strToNatQ
            (dictGetD sh ("id") ("0"))).getD 0)).data field ("")) ∧
          (on_item_changed c userId true sh field raw).requests =
          [(((strToNatQ (dictGetD sh ("id") ("0"))).getD 0), [(field, newValOf field raw)],
            pyIntOr1 (dictGet sh ("version"))),
           (((strToNatQ (dictGetD sh ("id") ("0"))).getD 0), [(field, newValOf field raw)],
            latestVersionOf (c.getShipmentById ((strToNatQ
              (dictGetD sh ("id") ("0"))).getD 0)).data
              (pyIntOr1 (dictGet sh ("version"))))] := by
        simp only [on_item_changed, if_neg hchg, hm1, hm2, hr1s, hr1c, hlrs,
          Bool.false_eq_true, if_false, if_true]
        rw [if_neg (by intro hand; exact hand.2 trivial)]
        rw [if_pos hdiff]
        by_cases hr2 : (c.updateShipmentWithVersion ((strToNatQ
            (dictGetD sh ("id") ("0"))).getD 0) [(field, newValOf field raw)]
            (latestVersionOf (c.getShipmentById ((strToNatQ
              (dictGetD sh ("id") ("0"))).getD 0)).data
              (pyIntOr1 (dictGet sh ("version"))))).success = true
        · rw [if_pos hr2]
          exact ⟨rfl, rfl⟩
        · rw [if_neg hr2]
          exact ⟨rfl, rfl⟩
      refine ⟨hout2.1, fun _ => hout2.2, fun hfalse => Bool.noConfusion hfalse⟩
    · have hcn : choiceYes = false := by
        cases choiceYes
        · rfl
        · exact absurd rfl hcy
      subst hcn
      have hout3 : on_item_changed c userId false sh field raw =
          ⟨[(((strToNatQ (dictGetD sh ("id") ("0"))).getD 0), [(field, newValOf field raw)],
             pyIntOr1 (dictGet sh ("version")))],
           [((strToNatQ (dictGetD sh ("id") ("0"))).getD 0)],
           some (newValOf field raw, dictGetD (c.getShipmentById ((strToNatQ
             (dictGetD sh ("id") ("0"))).getD 0)).data field ("")),
           mergeAll sh (c.getShipmentById ((strToNatQ
             (dictGetD sh ("id") ("0"))).getD 0)).data,
           some (dictGetD (c.getShipmentById ((strToNatQ
             (dictGetD sh ("id") ("0"))).getD 0)).data field ("")),
           some ("Change cancelled - field updated with current value"), none⟩ := by
        simp only [on_item_changed, if_neg hchg, hm1, hm2, hr1s, hr1c, hlrs,
          Bool.false_eq_true, if_false, if_true]
        rw [if_pos ⟨hdiff, not_false⟩]
      refine ⟨by rw [hout3], fun htrue => Bool.noConfusion htrue, fun _ => ?_⟩
      refine ⟨by rw [hout3], by rw [hout3], ?_⟩
      intro v2 hshf hlf
      rw [hout3]
      exact mergeAll_get_of_some _ sh field v2 hndl hshf hlf

/-- Witness for c3_conflict_resolution: a concrete client whose first
versioned update conflicts and whose refetch shows the edited
invoice_number untouched; the handler merges, keeps INV-100 and retries
once at the authoritative version 2, adopting the remote status. -/
theorem c3_conflict_resolution_witness :
    (on_item_changed
      ⟨fun _ => true,
       fun _ _ v => if v = 1 then ⟨false, 409, [], ("conflict")⟩
         else ⟨true, 200, [(("version"), ("3"))], ("")⟩,
       fun _ => ⟨true, 200, [(("id"), ("5")), (("version"), ("2")),
         (("invoice_number"), ("")), (("status"), ("s2"))], ("")⟩⟩
      9 true
      [(("id"), ("5")), (("version"), ("1")), (("invoice_number"), ("")),
       (("status"), ("s1"))]
      ("invoice_number") (some ("INV-100"))).dialog = none ∧
    (on_item_changed
      ⟨fun _ => true,
       fun _ _ v => if v = 1 then ⟨false, 409, [], ("conflict")⟩
         else ⟨true, 200, [(("version"), ("3"))], ("")⟩,
       fun _ => ⟨true, 200, [(("id"), ("5")), (("version"), ("2")),
         (("invoice_number"), ("")), (("status"), ("s2"))], ("")⟩⟩
      9 true
      [(("id"), ("5")), (("version"), ("1")), (("invoice_number"), ("")),
       (("status"), ("s1"))]
      ("invoice_number") (some ("INV-100"))).requests =
      [(5, [(("invoice_number"), ("INV-100"))], 1),
       (5, [(("invoice_number"), ("INV-100"))], 2)] ∧
    dictGet (on_item_changed
      ⟨fun _ => true,
       fun _ _ v => if v = 1 then ⟨false, 409, [], ("conflict")⟩
         else ⟨true, 200, [(("version"), ("3"))], ("")⟩,
       fun _ => ⟨true, 200, [(("id"), ("5")), (("version"), ("2")),
         (("invoice_number"), ("")), (("status"), ("s2"))], ("")⟩⟩
      9 true
      [(("id"), ("5")), (("version"), ("1")), (("invoice_number"), ("")),
       (("status"), ("s1"))]
      ("invoice_number") (some ("INV-100"))).shipment ("invoice_number") =
      some ("INV-100") ∧
    dictGet (on_item_changed
      ⟨fun _ => true,
       fun _ _ v => if v = 1 then ⟨false, 409, [], ("conflict")⟩
         else ⟨true, 200, [(("version"), ("3"))], ("")⟩,
       fun _ => ⟨true, 200, [(("id"), ("5")), (("version"), ("2")),
         (("invoice_number"), ("")), (("status"), ("s2"))], ("")⟩⟩
      9 true
      [(("id"), ("5")), (("version"), ("1")), (("invoice_number"), ("")),
       (("status"), ("s1"))]
      ("invoice_number") (some ("INV-100"))).shipment ("status") = some ("s2") := by
  have h := c3_conflict_resolution
    ⟨fun _ => true,
     fun _ _ v => if v = 1 then ⟨false, 409, [], ("conflict")⟩
       else ⟨true, 200, [(("version"), ("3"))], ("")⟩,
     fun _ => ⟨true, 200, [(("id"), ("5")), (("version"), ("2")),
       (("invoice_number"), ("")), (("status"), ("s2"))], ("")⟩⟩
    9 true
    [(("id"), ("5")), (("version"), ("1")), (("invoice_number"), ("")),
     (("status"), ("s1"))]
    [(("id"), ("5")), (("version"), ("2")), (("invoice_number"), ("")),
     (("status"), ("s2"))]
    ("invoice_number") (some ("INV-100")) 5 1 2 ("INV-100") ("") ("")
    rfl rfl (by decide) (by decide) (by decide) (by decide) (by decide)
    (by decide) (by decide) (by decide) rfl (by decide) (by decide) (by decide)
    (by decide) (by decide)
  have hA := h.1 (by decide)
  have hcl := hA.2.2.2 (by decide)
  exact ⟨hA.1, hA.2.1, hcl.1,
    hcl.2 ("status") ("s2") (by decide) (by decide) (by decide) (by decide) (by decide)⟩

/-- Claim C9: the class RobustApiClient defines neither
update_shipment_with_version nor get_shipment_by_id, so the edit handlers
change_status and on_item_changed, whose update path calls those methods on
the api client, raise AttributeError on the first such call; the
surrounding except clause converts it into a displayed error, and no
versioned update request is ever sent through these handlers. -/
theorem c9_missing_methods :
    (("update_shipment_with_version") ∉ robustApiClientMethods) ∧
    (("get_shipment_by_id") ∉ robustApiClientMethods) ∧
    (∀ (u : Nat → List (String × String) → Nat → ApiResp) (g : Nat → ApiResp)
       (userId : Nat) (sh : List (String × String)) (ns : String),
      change_status (robustClient u g) userId sh ns =
        ⟨[], [], sh, none,
         some (("Failed to update status: ") ++
           attributeErrorMessage ("update_shipment_with_version"))⟩) ∧
    (∀ (u : Nat → List (String × String) → Nat → ApiResp) (g : Nat → ApiResp)
       (userId : Nat) (choice : Bool) (sh : List (String × String))
       (field : String) (raw : Option String),
      newValOf field raw ≠ oldValOf sh field →
      on_item_changed (robustClient u g) userId choice sh field raw =
        ⟨[], [], none, sh, some (oldValOf sh field), none,
         some (("Failed to save changes: ") ++
           attributeErrorMessage ("update_shipment_with_version"))⟩) := by
  refine ⟨by decide, by decide, ?_, ?_⟩
  · intro u g userId sh ns
    have hnm : (robustClient u g).hasMethod ("update_shipment_with_version") = false := rfl
    simp only [change_status, hnm, Bool.false_eq_true, if_false]
  · intro u g userId choice sh field raw hchg
    have hnm : (robustClient u g).hasMethod ("update_shipment_with_version") = false := rfl
    simp only [on_item_changed, if_neg hchg, hnm, Bool.false_eq_true, if_false]

/-- Witness for c9_missing_methods: both handlers at concrete inputs show
the converted AttributeError and send no request. -/
theorem c9_missing_methods_witness :
    change_status (robustClient (fun _ _ _ => ⟨true, 200, [], ("")⟩)
        (fun _ => ⟨true, 200, [], ("")⟩)) 9
      [(("id"), ("1")), (("version"), ("1")), (("status"), ("x"))] ("final_release") =
      ⟨[], [], [(("id"), ("1")), (("version"), ("1")), (("status"), ("x"))], none,
       some (("Failed to update status: ") ++
         attributeErrorMessage ("update_shipment_with_version"))⟩ ∧
    on_item_changed (robustClient (fun _ _ _ => ⟨true, 200, [], ("")⟩)
        (fun _ => ⟨true, 200, [], ("")⟩)) 9 true
      [(("id"), ("1")), (("version"), ("1")), (("week"), ("W1"))] ("week")
      (some ("W2")) =
      ⟨[], [], none, [(("id"), ("1")), (("version"), ("1")), (("week"), ("W1"))],
       some (oldValOf [(("id"), ("1")), (("version"), ("1")), (("week"), ("W1"))] ("week")),
       none,
       some (("Failed to save changes: ") ++
         attributeErrorMessage ("update_shipment_with_version"))⟩ :=
  ⟨c9_missing_methods.2.2.1 (fun _ _ _ => ⟨true, 200, [], ("")⟩)
    (fun _ => ⟨true, 200, [], ("")⟩) 9
    [(("id"), ("1")), (("version"), ("1")), (("status"), ("x"))] ("final_release"),
   c9_missing_methods.2.2.2 (fun _ _ _ => ⟨true, 200, [], ("")⟩)
    (fun _ => ⟨true, 200, [], ("")⟩) 9 true
    [(("id"), ("1")), (("version"), ("1")), (("week"), ("W1"))] ("week")
    (some ("W2")) (by decide)⟩
